import Mathlib

/-!
# keepalived `core/smtp.c`: the SMTP alert session

A shallow embedding of the SMTP wrapper of keepalived (`core/smtp.c`) and a
verification of its protocol state machine, reply parser and teardown paths.

Conventions of the embedding.

* A `char` is its integer value (`Int`), so `reply[0] - '0'` is plain integer
  arithmetic; `'\r' = 13`, `'\n' = 10`, `'-' = 45`, `'0' = 48`.
* `smtp_arg->buffer` is the list of the `buflen` bytes received and not yet
  consumed; `buflen` is the length of that list.  The source keeps
  `buffer[buflen] = 0` (lines 95, 115, 139), so reading the byte at offset
  `buflen` yields `0`.  The byte one past that terminator is not determined by
  the session (it is whatever the allocation held before) and is an explicit
  input `junk` of the read handler.
* A pointer `reply` into the buffer is the suffix of the buffer it points to:
  `reply < buffer + buflen` is "the suffix is not empty", and
  `memmove(buffer, reply, buflen - (reply - buffer))` followed by
  `buflen -= reply - buffer` replaces the buffer by that suffix.
* What the environment answers to `read`, `send`, `socket`, `tcp_connect` and
  `tcp_socket_state` is an explicit input of the handler that makes the call.
* Effects are counted on explicit state: `free_smtp_all`, `close`, the
  descriptors `socket` returned, the data handed to `send`, and the callbacks
  registered with the scheduler.
* The constants of `smtp.h` (`SMTP_BUFFER_LENGTH`, `SMTP_BUFFER_MAX`, ...) are
  parameters.
* A C string is a `String`, read as its sequence of `char`s.
-/

namespace Smtp

/-! ## Data model -/

/-- Protocol step of a session: the values `smtp_arg->stage` ranges over in the
two `switch` statements of `smtp.c`. -/
inductive Stage
  | CONNECTION
  | HELO
  | MAIL
  | RCPT
  | DATA
  | BODY
  | QUIT
  | ERROR
  deriving DecidableEq, Repr

/-- The fields of `conf_data` that `smtp.c` reads. -/
structure data where
  email : List String
  email_from : String
  smtp_server : Nat
  smtp_connection_to : Nat
  lvs_id : Option String
  deriving DecidableEq, Repr

/-- Everything `smtp.c` takes from outside the session: the configuration, the
constants of `smtp.h`, and the result of `get_local_name ()`. -/
structure Env where
  conf_data : data
  SMTP_BUFFER_LENGTH : Nat
  SMTP_BUFFER_MAX : Nat
  MAX_HEADERS_LENGTH : Nat
  MAX_BODY_LENGTH : Nat
  local_name : Option String
  deriving DecidableEq, Repr

/-- The session record `smtp_thread_arg`.  `buffer` holds the `buflen` bytes
received and not yet consumed. -/
structure smtp_thread_arg where
  stage : Stage
  email_it : Nat
  subject : String
  body : String
  buffer : List Int
  deriving DecidableEq, Repr

/-- The field `buflen`: the number of unconsumed bytes in `buffer`. -/
def smtp_thread_arg.buflen (a : smtp_thread_arg) : Nat := a.buffer.length

/-- The value of `thread->type` a handler is entered with. -/
inductive thread_type
  | THREAD_READ
  | THREAD_WRITE
  | THREAD_READ_TIMEOUT
  | THREAD_WRITE_TIMEOUT
  | THREAD_EVENT
  deriving DecidableEq, Repr

/-- What one call of `send` is given: the command template of `smtp.h` together
with the arguments `snprintf` fills in. -/
inductive Cmd
  | SMTP_HELO_CMD (name : Option String)
  | SMTP_MAIL_CMD (sender : String)
  | SMTP_RCPT_CMD (rcpt : Option String)
  | SMTP_DATA_CMD
  | SMTP_HEADERS_CMD (sender subject : String)
  | SMTP_BODY_CMD (body : String)
  | SMTP_SEND_CMD
  | SMTP_QUIT_CMD
  deriving DecidableEq, Repr

/-- A registration with the scheduler: which `thread_add_*` call was made and
with which callback. -/
inductive Reg
  | read_cmd
  | write_cmd
  | write_check
  | event_connect
  deriving DecidableEq, Repr

/-- The session together with the effects counted on it: how often
`free_smtp_all` and `close` ran, how many descriptors `socket` returned, what
was handed to `send`, and the scheduler registrations not yet fired. -/
structure World where
  arg : smtp_thread_arg
  freed : Nat
  closed : Nat
  sockets : Nat
  sent : List Cmd
  pending : List Reg
  deriving DecidableEq, Repr

/-- The result of one `read (fd, buffer + buflen, count)`. -/
inductive ReadResult
  | data (bytes : List Int)
  | eagain
  | error
  deriving DecidableEq, Repr

/-- The result of `tcp_connect`. -/
inductive connect_result
  | connect_error
  | connect_timeout
  | connect_success
  | connect_in_progress
  deriving DecidableEq, Repr

/-! ## Effects -/

/-- `free_smtp_all (smtp_arg)`. -/
def free_smtp_all (w : World) : World := { w with freed := w.freed + 1 }

/-- `close (fd)`. -/
def close (w : World) : World := { w with closed := w.closed + 1 }

/-- A call of `socket` that returns a descriptor. -/
def socket (w : World) : World := { w with sockets := w.sockets + 1 }

/-- `thread_add_read (master, smtp_read_cmd_thread, smtp_arg, fd, timeout)`. -/
def thread_add_read (w : World) : World := { w with pending := w.pending ++ [Reg.read_cmd] }

/-- `thread_add_write (master, smtp_send_cmd_thread, smtp_arg, fd, timeout)`. -/
def thread_add_write (w : World) : World := { w with pending := w.pending ++ [Reg.write_cmd] }

/-- `thread_add_write (master, smtp_check_thread, smtp_arg, fd, timeout)`. -/
def thread_add_write_check (w : World) : World :=
  { w with pending := w.pending ++ [Reg.write_check] }

/-- One `send (fd, cmd, ...)` whose result is `-1` exactly when `failed`:
the data is recorded and a failure sets the stage to `ERROR`. -/
def send (cmd : Cmd) (failed : Bool) (w : World) : World :=
  { w with
    sent := w.sent ++ [cmd]
    arg := if failed then { w.arg with stage := Stage.ERROR } else w.arg }

/-- Modelled from the spec: `list_element` of `list.c` is not part of the
sources; the recipients are "an ordered, immutable sequence" and the cursor is
an index into it, so the element at an index past the end is absent (`NULL`). -/
def list_element (l : List String) (i : Nat) : Option String := l.get? i

/-- `fetch_next_email`, lines 44-48. -/
def fetch_next_email (env : Env) (a : smtp_thread_arg) : Option String :=
  list_element env.conf_data.email a.email_it

/-! ## The read handler -/

/-- The `while` loop over `read`, lines 72-99.  `reads` are the results of the
successive calls; the loop is left for `end:` by a result of `0`, by `EAGAIN`,
or by a short read, and the list running out stands for a result of `0` or
`EAGAIN`.  `none` is the teardown of lines 78-82 and 86-92. -/
def read_loop (env : Env) : List ReadResult → List Int → Option (List Int)
  | [], buffer => some buffer
  | ReadResult.eagain :: _, buffer => some buffer
  | ReadResult.error :: _, _ => none
  | ReadResult.data bytes :: rest, buffer =>
    if bytes.length = 0 then some buffer
    else if buffer.length ≥ env.SMTP_BUFFER_MAX then none
    else if bytes.length < env.SMTP_BUFFER_LENGTH then some (buffer ++ bytes)
    else read_loop env rest (buffer ++ bytes)

/-- `strstr (reply, "\r\n")`: the offset of the first CR LF of the string at
`reply`, which ends at its first NUL byte. -/
def strstr_crlf : List Int → Option Nat
  | [] => none
  | c :: rest =>
    if c = 0 then none
    else if c = 13 ∧ rest.head? = some 10 then some 0
    else (strstr_crlf rest).map (· + 1)

/-- The byte `reply[i]`: a received byte, the NUL terminator right after the
last received byte, or the byte `junk` one past the terminator. -/
def char_at (reply : List Int) (junk : Int) (i : Nat) : Int :=
  match reply.get? i with
  | some c => c
  | none => if i = reply.length then 0 else junk

/-- The status of lines 129-131. -/
def status_of (reply : List Int) (junk : Int) : Int :=
  (char_at reply junk 0 - 48) * 100 + (char_at reply junk 1 - 48) * 10
    + (char_at reply junk 2 - 48)

/-- How the parse loop of lines 106-135 is left. -/
inductive Parsed
  | more (reply : List Int)
  | done (status : Int) (reply : List Int)
  deriving DecidableEq, Repr

/-- The parse loop, lines 106-135, from the position `reply`.  `more` is the
branch `!p` of lines 111-121; `done` carries `status` (still `-1` when the loop
ends because `reply` reached the end of the data) and the final `reply`.
Every iteration that continues moves `reply` forward by at least two bytes, so
`fuel` larger than the length of `reply` is never used up (`none`). -/
def parse_loop (junk : Int) : Nat → List Int → Option Parsed
  | 0, _ => none
  | fuel + 1, reply =>
    if reply.length = 0 then some (Parsed.done (-1) reply)
    else
      match strstr_crlf reply with
      | none => some (Parsed.more reply)
      | some p =>
        if char_at reply junk 3 = 45 then parse_loop junk fuel (reply.drop (p + 2))
        else some (Parsed.done (status_of reply junk) (reply.drop (p + 2)))

/-- The parse of the whole buffer: `reply = buffer`, lines 106-135. -/
def smtp_parse (junk : Int) (buffer : List Int) : Option Parsed :=
  parse_loop junk (buffer.length + 1) buffer

/-- The assignments of the `switch` of lines 148-223 for a parsed `status`
(the case `QUIT` returns from the handler and assigns nothing). -/
def next_stage (env : Env) (status : Int) (a : smtp_thread_arg) : smtp_thread_arg :=
  match a.stage with
  | Stage.CONNECTION =>
    if status = 220 then { a with stage := Stage.HELO } else { a with stage := Stage.ERROR }
  | Stage.HELO =>
    if status = 250 then { a with stage := Stage.MAIL } else { a with stage := Stage.ERROR }
  | Stage.MAIL =>
    if status = 250 then { a with stage := Stage.RCPT } else { a with stage := Stage.ERROR }
  | Stage.RCPT =>
    if status = 250 then
      let a1 := { a with email_it := a.email_it + 1 }
      match fetch_next_email env a1 with
      | none => { a1 with stage := Stage.DATA }
      | some _ => a1
    else { a with stage := Stage.ERROR }
  | Stage.DATA =>
    if status = 354 then { a with stage := Stage.BODY } else { a with stage := Stage.ERROR }
  | Stage.BODY =>
    if status = 250 then { a with stage := Stage.QUIT } else { a with stage := Stage.ERROR }
  | Stage.QUIT => a
  | Stage.ERROR => a

/-- Lines 147-228: the `switch` on the stage and the registration that follows
it.  In the stage `QUIT` the session is freed, the socket closed and nothing is
registered; in every other stage `smtp_send_cmd_thread` is registered. -/
def smtp_switch (env : Env) (status : Int) (w : World) : World :=
  match w.arg.stage with
  | Stage.QUIT => close (free_smtp_all w)
  | _ => thread_add_write { w with arg := next_stage env status w.arg }

/-- Lines 111-121 and 137-228: what the handler does with the outcome of the
parse loop.  Without a terminator the buffer is compacted to `reply` and a read
is registered; otherwise the buffer is compacted, a read is registered when
`status` is `-1`, and the `switch` runs when it is not.  The parse of the whole
buffer never runs out of fuel (`smtp_parse_isSome`), so the case `none` does
not occur. -/
def smtp_reply (env : Env) (w : World) : Option Parsed → World
  | none => w
  | some (Parsed.more reply) =>
    thread_add_read { w with arg := { w.arg with buffer := reply } }
  | some (Parsed.done status reply) =>
    if status = -1 then thread_add_read { w with arg := { w.arg with buffer := reply } }
    else smtp_switch env status { w with arg := { w.arg with buffer := reply } }

/-- The handler `smtp_read_cmd_thread`, lines 50-229. -/
def smtp_read_cmd_thread (env : Env) (type : thread_type) (reads : List ReadResult)
    (junk : Int) (w : World) : World :=
  if type = thread_type.THREAD_READ_TIMEOUT then close (free_smtp_all w)
  else
    match read_loop env reads w.arg.buffer with
    | none => close (free_smtp_all w)
    | some buffer => smtp_reply env w (smtp_parse junk buffer)

/-! ## The write handler -/

/-- The handler `smtp_send_cmd_thread`, lines 247-347.  `failed k` tells
whether the `k`-th call of `send` of this invocation returns `-1`. -/
def smtp_send_cmd_thread (env : Env) (type : thread_type) (failed : Nat → Bool)
    (w : World) : World :=
  if type = thread_type.THREAD_WRITE_TIMEOUT then close (free_smtp_all w)
  else
    match w.arg.stage with
    | Stage.CONNECTION => thread_add_read w
    | Stage.HELO => thread_add_read (send (Cmd.SMTP_HELO_CMD env.local_name) (failed 0) w)
    | Stage.MAIL =>
      thread_add_read (send (Cmd.SMTP_MAIL_CMD env.conf_data.email_from) (failed 0) w)
    | Stage.RCPT =>
      thread_add_read (send (Cmd.SMTP_RCPT_CMD (fetch_next_email env w.arg)) (failed 0) w)
    | Stage.DATA => thread_add_read (send Cmd.SMTP_DATA_CMD (failed 0) w)
    | Stage.BODY =>
      thread_add_read
        (send Cmd.SMTP_SEND_CMD (failed 2)
          (send (Cmd.SMTP_BODY_CMD w.arg.body) (failed 1)
            (send (Cmd.SMTP_HEADERS_CMD env.conf_data.email_from w.arg.subject) (failed 0) w)))
    | Stage.QUIT => thread_add_read (send Cmd.SMTP_QUIT_CMD (failed 0) w)
    | Stage.ERROR => close (free_smtp_all w)

/-! ## Connection set-up -/

/-- The handler `smtp_connect_thread`, lines 390-445.  `sock` tells whether
`socket` returned a descriptor and `status` is the result of `tcp_connect`. -/
def smtp_connect_thread (env : Env) (sock : Bool) (status : connect_result)
    (w : World) : World :=
  if env.conf_data.smtp_server = 0 then free_smtp_all w
  else if sock = false then w
  else
    match status with
    | connect_result.connect_error => close (free_smtp_all (socket w))
    | connect_result.connect_timeout => close (free_smtp_all (socket w))
    | connect_result.connect_success => thread_add_write_check (socket w)
    | connect_result.connect_in_progress => thread_add_write_check (socket w)

/-- Modelled from the spec: `tcp_socket_state` is not part of the sources.  The
spec has the connection establisher, while the connect is in progress, "wait
for writability, re-check completion when writable or on timeout", and has the
socket closed exactly once on every exit path; `smtp_check_thread` passes
itself as the callback and closes nothing.  So the helper registers
`smtp_check_thread` again when it reports `connect_in_progress`, closes the
descriptor when it reports `connect_error` or `connect_timeout`, and does
nothing but report on `connect_success`. -/
def tcp_socket_state (status : connect_result) (w : World) : World :=
  match status with
  | connect_result.connect_error => close w
  | connect_result.connect_timeout => close w
  | connect_result.connect_success => w
  | connect_result.connect_in_progress => thread_add_write_check w

/-- The handler `smtp_check_thread`, lines 349-388.  `status` is what
`tcp_socket_state` reports; the `switch` has no case for
`connect_in_progress`. -/
def smtp_check_thread (_env : Env) (status : connect_result) (w : World) : World :=
  match status with
  | connect_result.connect_error => free_smtp_all (tcp_socket_state status w)
  | connect_result.connect_timeout => free_smtp_all (tcp_socket_state status w)
  | connect_result.connect_success => thread_add_write (tcp_socket_state status w)
  | connect_result.connect_in_progress => tcp_socket_state status w

/-! ## The entry point -/

/-- The fields of `real_server` that `smtp_alert` prints: the text
`inet_ntop2 (SVR_IP (rs))` and the number `ntohs (SVR_PORT (rs))`. -/
structure real_server where
  addr : String
  port : Nat
  deriving DecidableEq, Repr

/-- The field of `vrrp_rt` that `smtp_alert` prints. -/
structure vrrp_rt where
  iname : String
  deriving DecidableEq, Repr

/-- `snprintf (dst, size, format, ...)` for the formatted `text`: at most
`size - 1` characters are stored, followed by the terminator. -/
def snprintf (size : Nat) (text : String) : String := String.mk (text.data.take (size - 1))

/-- `strncpy (dst, src, size)` into a zero-filled destination: at most `size`
characters are copied. -/
def strncpy (size : Nat) (src : String) : String := String.mk (src.data.take size)

/-- What `%s` prints for its argument; `null_s` is what the C library prints
for a null pointer. -/
def percent_s (null_s : String) : Option String → String
  | some s => s
  | none => null_s

/-- Modelled from the spec: `MALLOC` of `memory.h` is not part of the sources.
A new session has its cursor at the first recipient and nothing received, and
`smtp_alert` assigns neither `email_it` nor `buflen`, so the allocation is
zero-filled: cursor 0, empty strings, `buflen` 0.  The stage is assigned by
`smtp_alert` before any use. -/
def MALLOC : smtp_thread_arg :=
  { stage := Stage.CONNECTION, email_it := 0, subject := "", body := "", buffer := [] }

/-- The subject `smtp_alert` formats, lines 463-479, before truncation. -/
def alert_subject (env : Env) (null_s : String) (rs : Option real_server)
    (vrrp : Option vrrp_rt) (subject : String) : String :=
  match rs, vrrp, env.conf_data.lvs_id with
  | some r, _, lvs_id =>
    "[" ++ percent_s null_s lvs_id ++ "] Realserver " ++ r.addr ++ ":" ++ toString r.port
      ++ " - " ++ subject
  | none, some v, lvs_id =>
    "[" ++ percent_s null_s lvs_id ++ "] VRRP Instance " ++ v.iname ++ " - " ++ subject
  | none, none, some id => "[" ++ id ++ "] " ++ subject
  | none, none, none => subject

/-- The entry point `smtp_alert`, lines 447-485.  `none` is the call that skips
the body of the `if`: nothing is allocated and nothing registered.  Otherwise
the result is the new session with the event `smtp_connect_thread` registered
for it. -/
def smtp_alert (env : Env) (null_s : String) (rs : Option real_server)
    (vrrp : Option vrrp_rt) (subject body : String) : Option World :=
  if env.conf_data.email = [] then none
  else
    some
      { arg :=
          { MALLOC with
            stage := Stage.CONNECTION
            subject := snprintf env.MAX_HEADERS_LENGTH (alert_subject env null_s rs vrrp subject)
            body := strncpy env.MAX_BODY_LENGTH body }
        freed := 0, closed := 0, sockets := 0, sent := []
        pending := [Reg.event_connect] }

/-! ## The scheduler -/

/-- What the scheduler and the peer supply when the pending callback of the
session fires: the descriptor became readable (with the results of the calls of
`read` and the byte past the terminator), it became writable (with the results
of the calls of `send`), the timer of the registration ran out, the event
registered by `thread_add_event` is run (with the results of `socket` and
`tcp_connect`), or the descriptor of a connect under way is reported (with the
state `tcp_socket_state` finds). -/
inductive Event
  | readable (reads : List ReadResult) (junk : Int)
  | writable (failed : Nat → Bool)
  | timeout
  | immediate (sock : Bool) (status : connect_result)
  | connecting (status : connect_result)

/-- The scheduler fires the oldest pending registration of the session, which
is consumed, and runs its callback.  An event that does not fit the
registration (a descriptor registered for reading reported writable) fires
nothing.  When the timer of the registration of `smtp_check_thread` runs out,
`tcp_socket_state` reports `connect_timeout`. -/
def fire (env : Env) (w : World) (e : Event) : World :=
  match w.pending, e with
  | Reg.read_cmd :: rest, Event.readable reads junk =>
    smtp_read_cmd_thread env thread_type.THREAD_READ reads junk { w with pending := rest }
  | Reg.read_cmd :: rest, Event.timeout =>
    smtp_read_cmd_thread env thread_type.THREAD_READ_TIMEOUT [] 0 { w with pending := rest }
  | Reg.write_cmd :: rest, Event.writable failed =>
    smtp_send_cmd_thread env thread_type.THREAD_WRITE failed { w with pending := rest }
  | Reg.write_cmd :: rest, Event.timeout =>
    smtp_send_cmd_thread env thread_type.THREAD_WRITE_TIMEOUT (fun _ => false)
      { w with pending := rest }
  | Reg.event_connect :: rest, Event.immediate sock status =>
    smtp_connect_thread env sock status { w with pending := rest }
  | Reg.write_check :: rest, Event.connecting status =>
    smtp_check_thread env status { w with pending := rest }
  | Reg.write_check :: rest, Event.timeout =>
    smtp_check_thread env connect_result.connect_timeout { w with pending := rest }
  | _, _ => w

/-- A run: the events are fired one after the other. -/
def run (env : Env) (w : World) (es : List Event) : World := es.foldl (fire env) w

/-- The stages in which the write phase `smtp_send_cmd_thread` is entered
during a run on a writable descriptor, in order. -/
def write_stages (env : Env) : World → List Event → List Stage
  | _, [] => []
  | w, e :: es =>
    (match w.pending, e with
      | Reg.write_cmd :: _, Event.writable _ => [w.arg.stage]
      | _, _ => []) ++ write_stages env (fire env w e) es

/-! ## Vocabulary of the specification -/

/-- The position of a stage in the fixed order
`CONNECTION < HELO < MAIL < RCPT < DATA < BODY < QUIT`; `ERROR` stands outside
that order and is given the position after the last. -/
def Stage.rank : Stage → Nat
  | Stage.CONNECTION => 0
  | Stage.HELO => 1
  | Stage.MAIL => 2
  | Stage.RCPT => 3
  | Stage.DATA => 4
  | Stage.BODY => 5
  | Stage.QUIT => 6
  | Stage.ERROR => 7

/-- The reply code a stage expects, following the transition table. -/
def expected : Stage → Int
  | Stage.CONNECTION => 220
  | Stage.DATA => 354
  | _ => 250

/-- The line terminator CR LF. -/
def CRLF : List Int := [13, 10]

/-- Whether a CR LF occurs inside a sequence of bytes. -/
def has_crlf : List Int → Bool
  | [] => false
  | c :: rest => (c == 13 && rest.head? == some 10) || has_crlf rest

/-- The bytes of a sequence of lines, each given by its content and followed by
CR LF. -/
def cat_lines : List (List Int) → List Int
  | [] => []
  | l :: ls => l ++ CRLF ++ cat_lines ls

/-- The content of a continuation line: it holds no CR LF, so the line ends at
its terminator, and its fourth character is `-`. -/
def is_continuation (l : List Int) : Prop := has_crlf l = false ∧ l.get? 3 = some 45

/-- The content of a final line: it holds no CR LF, the line with its
terminator has a fourth character, and that character is not `-`. -/
def is_final (l : List Int) : Prop :=
  has_crlf l = false ∧ 2 ≤ l.length ∧ l.get? 3 ≠ some 45

/-- The status `100*(c0-'0') + 10*(c1-'0') + (c2-'0')` of the first three
characters `c0 c1 c2` of a line. -/
def line_status (line : List Int) : Int :=
  100 * (line.getD 0 0 - 48) + 10 * (line.getD 1 0 - 48) + (line.getD 2 0 - 48)

/-- The bytes of a server response: continuation lines, then the final line. -/
def response (conts : List (List Int)) (final : List Int) : List Int :=
  cat_lines conts ++ (final ++ CRLF)

instance (l : List Int) : Decidable (is_continuation l) := by
  unfold is_continuation; infer_instance

instance (l : List Int) : Decidable (is_final l) := by
  unfold is_final; infer_instance

/-- A stage is reached from another by a step that keeps it, moves it to a
later stage of the fixed order, or sets it to `ERROR`. -/
def stage_advances (s r : Stage) : Prop :=
  r = s ∨ r = Stage.ERROR ∨ (s.rank < r.rank ∧ r ≠ Stage.ERROR)

/-- The server answers with the status `code`: the bytes are a response free of
NUL bytes whose final line has that status. -/
def answers (code : Int) (reply : List Int) : Prop :=
  ∃ conts final, (∀ l ∈ conts, is_continuation l ∧ (0 : Int) ∉ l) ∧ is_final final
    ∧ (0 : Int) ∉ final ∧ line_status (final ++ CRLF) = code ∧ reply = response conts final

/-- One command and reply cycle: the descriptor becomes writable and every
`send` succeeds, then it becomes readable and one `read` returns the reply. -/
def exchange (reply : List Int × Int) : List Event :=
  [Event.writable (fun _ => false), Event.readable [ReadResult.data reply.1] reply.2]

/-- A sequence of command and reply cycles. -/
def exchanges : List (List Int × Int) → List Event
  | [] => []
  | r :: rs => exchange r ++ exchanges rs

/-- The data the write phase hands to `send` in a stage, in order. -/
def stage_cmds (env : Env) (a : smtp_thread_arg) : List Cmd :=
  match a.stage with
  | Stage.CONNECTION => []
  | Stage.HELO => [Cmd.SMTP_HELO_CMD env.local_name]
  | Stage.MAIL => [Cmd.SMTP_MAIL_CMD env.conf_data.email_from]
  | Stage.RCPT => [Cmd.SMTP_RCPT_CMD (fetch_next_email env a)]
  | Stage.DATA => [Cmd.SMTP_DATA_CMD]
  | Stage.BODY =>
    [Cmd.SMTP_HEADERS_CMD env.conf_data.email_from a.subject, Cmd.SMTP_BODY_CMD a.body,
      Cmd.SMTP_SEND_CMD]
  | Stage.QUIT => [Cmd.SMTP_QUIT_CMD]
  | Stage.ERROR => []

/-! ## Sample data -/

/-- A sample environment: two recipients, a relay, and the buffer sizes 512 and
1024. -/
def sample_env : Env :=
  { conf_data :=
      { email := ["admin@example.org", "ops@example.org"], email_from := "keepalived@lb1",
        smtp_server := 3232235777, smtp_connection_to := 30, lvs_id := some "LVS_MAIN" },
    SMTP_BUFFER_LENGTH := 512, SMTP_BUFFER_MAX := 1024, MAX_HEADERS_LENGTH := 256,
    MAX_BODY_LENGTH := 512, local_name := some "lb1" }

/-- A sample session in a given stage with a given registration pending: cursor
at the first recipient, empty receive buffer, nothing freed, closed, created or
sent. -/
def sample_world (stage : Stage) (pending : List Reg) : World :=
  { arg := { stage := stage, email_it := 0, subject := "[LVS_MAIN] alert", body := "down",
             buffer := [] },
    freed := 0, closed := 0, sockets := 0, sent := [], pending := pending }

/-- The line content `220 ok`. -/
def line_220 : List Int := [50, 50, 48, 32, 111, 107]

/-- The line content `250 ok`. -/
def line_250 : List Int := [50, 53, 48, 32, 111, 107]

/-- The line content `354 ok`. -/
def line_354 : List Int := [51, 53, 52, 32, 111, 107]

/-- The line content `221 ok`. -/
def line_221 : List Int := [50, 50, 49, 32, 111, 107]

/-- The line content `550 no`. -/
def line_550 : List Int := [53, 53, 48, 32, 110, 111]

/-- The continuation line content `250-a`. -/
def line_250_cont : List Int := [50, 53, 48, 45, 97]

/-- The sample environment without a relay: `smtp_server` is 0. -/
def sample_env_no_relay : Env :=
  { sample_env with conf_data := { sample_env.conf_data with smtp_server := 0 } }

/-- A sample real server. -/
def sample_rs : real_server := { addr := "192.168.1.10", port := 80 }

/-- A sample VRRP instance. -/
def sample_vrrp : vrrp_rt := { iname := "VI_1" }

/-- The subject as the specification words it, before truncation: with a
monitored backend `[id] Backend address:port - subject`, else with a redundancy
instance `[id] Instance name - subject`, else with a deployment id
`[id] subject`, else the raw subject. -/
def stated_subject (null_s : String) (lvs_id : Option String) (rs : Option real_server)
    (vrrp : Option vrrp_rt) (subject : String) : String :=
  if rs.isSome then
    "[" ++ percent_s null_s lvs_id ++ "] Backend " ++ (rs.map (·.addr)).getD "" ++ ":"
      ++ toString ((rs.map (·.port)).getD 0) ++ " - " ++ subject
  else if vrrp.isSome then
    "[" ++ percent_s null_s lvs_id ++ "] Instance " ++ (vrrp.map (·.iname)).getD "" ++ " - "
      ++ subject
  else if lvs_id.isSome then "[" ++ lvs_id.getD "" ++ "] " ++ subject
  else subject

/-- The subject with the words of the source in the place of `Backend` and
`Instance`: `Realserver` and `VRRP Instance`. -/
def amended_subject (null_s : String) (lvs_id : Option String) (rs : Option real_server)
    (vrrp : Option vrrp_rt) (subject : String) : String :=
  if rs.isSome then
    "[" ++ percent_s null_s lvs_id ++ "] Realserver " ++ (rs.map (·.addr)).getD "" ++ ":"
      ++ toString ((rs.map (·.port)).getD 0) ++ " - " ++ subject
  else if vrrp.isSome then
    "[" ++ percent_s null_s lvs_id ++ "] VRRP Instance " ++ (vrrp.map (·.iname)).getD ""
      ++ " - " ++ subject
  else if lvs_id.isSome then "[" ++ lvs_id.getD "" ++ "] " ++ subject
  else subject

/-- Later invocations that still find no terminator: every event reports the
descriptor readable, the read loop is left for the parse, and the buffer it
yields holds no CR LF. -/
def no_terminator (env : Env) : List Int → List Event → Bool
  | _, [] => true
  | buffer, Event.readable reads _ :: es =>
    match read_loop env reads buffer with
    | some buffer2 => !has_crlf buffer2 && no_terminator env buffer2 es
    | none => false
  | _, _ :: _ => false

/-- The buffer the read loops of a sequence of invocations accumulate when no
parse consumes anything. -/
def accumulated (env : Env) : List Int → List Event → List Int
  | buffer, [] => buffer
  | buffer, Event.readable reads _ :: es =>
    accumulated env ((read_loop env reads buffer).getD buffer) es
  | buffer, _ :: es => accumulated env buffer es

/-- Where the cursor stands in each stage, for a recipient list of length `n`:
at 0 before the stage `RCPT`, below `n` in it, at `n` after it, and anywhere up
to `n` in the stage `ERROR`. -/
def cursor_inv (n : Nat) (a : smtp_thread_arg) : Prop :=
  match a.stage with
  | Stage.CONNECTION => a.email_it = 0
  | Stage.HELO => a.email_it = 0
  | Stage.MAIL => a.email_it = 0
  | Stage.RCPT => a.email_it < n
  | Stage.DATA => a.email_it = n
  | Stage.BODY => a.email_it = n
  | Stage.QUIT => a.email_it = n
  | Stage.ERROR => a.email_it ≤ n

/-- A sample run from the creation of the session to the stage `RCPT`: the
connect succeeds, and the banner, `HELO` and `MAIL FROM` are answered 220, 250
and 250. -/
def sample_run_to_rcpt : List Event :=
  [Event.immediate true connect_result.connect_success,
    Event.connecting connect_result.connect_success]
    ++ exchanges [(response [] line_220, 0), (response [] line_250, 0),
      (response [] line_250, 0)]

/-- What one step does to the cursor, for a recipient list of length `n`: the
cursor stands where the new stage wants it, it has not moved back, and a step
taken in the stage `RCPT` reaches `DATA` exactly when the cursor reaches `n`. -/
def cursor_step (n : Nat) (a a2 : smtp_thread_arg) : Prop :=
  cursor_inv n a2 ∧ a.email_it ≤ a2.email_it
    ∧ (a.stage = Stage.RCPT → (a2.stage = Stage.DATA ↔ a2.email_it = n))

/-- The count `SMTP_BUFFER_LENGTH - smtp_arg->buflen` a call of `read` asks for,
as the integer the subtraction yields. -/
def read_count (env : Env) (buffer : List Int) : Int :=
  (env.SMTP_BUFFER_LENGTH : Int) - (buffer.length : Int)

/-- Every `read` the loop of lines 72-99 performs returns no more bytes than the
count it asked for. -/
def reads_within (env : Env) : List ReadResult → List Int → Bool
  | [], _ => true
  | ReadResult.eagain :: _, _ => true
  | ReadResult.error :: _, _ => true
  | ReadResult.data bytes :: rest, buffer =>
    decide ((bytes.length : Int) ≤ read_count env buffer)
      && (if bytes.length = 0 then true
          else if buffer.length ≥ env.SMTP_BUFFER_MAX then true
          else if bytes.length < env.SMTP_BUFFER_LENGTH then true
          else reads_within env rest (buffer ++ bytes))

/-- The counts the calls of `read` of one run of the loop of lines 72-99 ask
for, in order; the list `reads` running out stands for one more call. -/
def requested (env : Env) : List ReadResult → List Int → List Int
  | [], buffer => [read_count env buffer]
  | ReadResult.eagain :: _, buffer => [read_count env buffer]
  | ReadResult.error :: _, buffer => [read_count env buffer]
  | ReadResult.data bytes :: rest, buffer =>
    read_count env buffer
      :: (if bytes.length = 0 then []
          else if buffer.length ≥ env.SMTP_BUFFER_MAX then []
          else if bytes.length < env.SMTP_BUFFER_LENGTH then []
          else requested env rest (buffer ++ bytes))

/-- Along a run, every `read` of every invocation of `smtp_read_cmd_thread`
returns no more bytes than the count it asked for. -/
def events_within (env : Env) : World → List Event → Bool
  | _, [] => true
  | w, e :: es =>
    (match w.pending, e with
      | Reg.read_cmd :: _, Event.readable reads _ => reads_within env reads w.arg.buffer
      | _, _ => true) && events_within env (fire env w e) es

/-- C3: the stage switch of `smtp_read_cmd_thread` is the transition table.
For every parsed status `s`: `CONNECTION` goes to `HELO` when `s = 220`, `HELO`
to `MAIL` when `s = 250`, `MAIL` to `RCPT` when `s = 250`, `DATA` to `BODY` when
`s = 354`, `BODY` to `QUIT` when `s = 250`, and to `ERROR` for any other `s`;
in `RCPT`, `s = 250` advances the cursor by one and the stage stays `RCPT` when
a recipient exists at the new cursor and becomes `DATA` otherwise, any other
`s` gives `ERROR` with the cursor unchanged; outside `RCPT` nothing but the
stage changes; and the handler applies exactly these assignments before it
registers the write phase. -/
theorem next_stage_table (env : Env) (s : Int) (a : smtp_thread_arg) (w : World) :
    next_stage env s { a with stage := Stage.CONNECTION }
        = { a with stage := if s = 220 then Stage.HELO else Stage.ERROR }
    ∧ next_stage env s { a with stage := Stage.HELO }
        = { a with stage := if s = 250 then Stage.MAIL else Stage.ERROR }
    ∧ next_stage env s { a with stage := Stage.MAIL }
        = { a with stage := if s = 250 then Stage.RCPT else Stage.ERROR }
    ∧ next_stage env s { a with stage := Stage.RCPT }
        = (if s = 250 then
            { a with
              email_it := a.email_it + 1
              stage := if a.email_it + 1 < env.conf_data.email.length then Stage.RCPT
                else Stage.DATA }
          else { a with stage := Stage.ERROR })
    ∧ next_stage env s { a with stage := Stage.DATA }
        = { a with stage := if s = 354 then Stage.BODY else Stage.ERROR }
    ∧ next_stage env s { a with stage := Stage.BODY }
        = { a with stage := if s = 250 then Stage.QUIT else Stage.ERROR }
    ∧ next_stage env s { a with stage := Stage.QUIT } = { a with stage := Stage.QUIT }
    ∧ next_stage env s { a with stage := Stage.ERROR } = { a with stage := Stage.ERROR }
    ∧ smtp_switch env s w
        = (if w.arg.stage = Stage.QUIT then close (free_smtp_all w)
          else thread_add_write { w with arg := next_stage env s w.arg }) := by
  refine ⟨?_, ?_, ?_, ?_, ?_, ?_, rfl, rfl, ?_⟩
  · simp only [next_stage]; split <;> rfl
  · simp only [next_stage]; split <;> rfl
  · simp only [next_stage]; split <;> rfl
  · simp only [next_stage, fetch_next_email, list_element]
    by_cases h : s = 250
    · simp only [h, if_true]
      by_cases hlt : a.email_it + 1 < env.conf_data.email.length
      · rw [List.get?_eq_get hlt]; simp [hlt]
      · rw [List.get?_eq_none.mpr (by omega)]; simp [hlt]
    · simp [h]
  · simp only [next_stage]; split <;> rfl
  · simp only [next_stage]; split <;> rfl
  · unfold smtp_switch
    cases h : w.arg.stage <;> simp

/-! ## Timeouts -/

/-- C8: entered with a read timeout, `smtp_read_cmd_thread` reads nothing, sends
nothing, registers nothing, and frees the session and closes the socket once;
entered with a write timeout, `smtp_send_cmd_thread` does the same; this holds
in every stage and for every state of the session. -/
theorem timeout_teardown (env : Env) (reads : List ReadResult) (junk : Int)
    (failed : Nat → Bool) (w : World) :
    smtp_read_cmd_thread env thread_type.THREAD_READ_TIMEOUT reads junk w
        = { w with freed := w.freed + 1, closed := w.closed + 1 }
    ∧ smtp_send_cmd_thread env thread_type.THREAD_WRITE_TIMEOUT failed w
        = { w with freed := w.freed + 1, closed := w.closed + 1 } := by
  constructor
  · simp [smtp_read_cmd_thread, close, free_smtp_all]
  · simp [smtp_send_cmd_thread, close, free_smtp_all]

/-! ## Stage order -/

theorem send_stage (cmd : Cmd) (b : Bool) (w : World) :
    (send cmd b w).arg.stage = w.arg.stage ∨ (send cmd b w).arg.stage = Stage.ERROR := by
  cases b <;> simp [send]

theorem send_stage_error (cmd : Cmd) (b : Bool) (w : World)
    (h : w.arg.stage = Stage.ERROR) : (send cmd b w).arg.stage = Stage.ERROR := by
  cases b <;> simp [send, h]

theorem next_stage_rank (env : Env) (s : Int) (a : smtp_thread_arg) :
    stage_advances a.stage (next_stage env s a).stage := by
  unfold stage_advances next_stage
  cases h : a.stage <;> simp only [] <;> (try split) <;> (try split) <;>
    simp [Stage.rank, h]

theorem smtp_reply_stage (env : Env) (w : World) (p : Option Parsed) :
    stage_advances w.arg.stage (smtp_reply env w p).arg.stage := by
  unfold stage_advances
  rcases p with _ | ⟨reply⟩ | ⟨status, reply⟩
  · simp [smtp_reply]
  · simp [smtp_reply, thread_add_read]
  · simp only [smtp_reply]
    by_cases hs : status = -1
    · simp [hs, thread_add_read]
    · simp only [hs, if_false, smtp_switch]
      by_cases hq : w.arg.stage = Stage.QUIT
      · simp [hq, close, free_smtp_all]
      · have := next_stage_rank env status { w.arg with buffer := reply }
        unfold stage_advances at this
        cases h : w.arg.stage <;> simp_all [thread_add_write]

theorem smtp_reply_stage_error (env : Env) (w : World) (p : Option Parsed)
    (h : w.arg.stage = Stage.ERROR) : (smtp_reply env w p).arg.stage = Stage.ERROR := by
  rcases p with _ | ⟨reply⟩ | ⟨status, reply⟩
  · simp [smtp_reply, h]
  · simp [smtp_reply, thread_add_read, h]
  · simp only [smtp_reply]
    by_cases hs : status = -1
    · simp [hs, thread_add_read, h]
    · simp [hs, smtp_switch, h, thread_add_write, next_stage]

theorem read_stage (env : Env) (type : thread_type) (reads : List ReadResult) (junk : Int)
    (w : World) :
    stage_advances w.arg.stage (smtp_read_cmd_thread env type reads junk w).arg.stage := by
  unfold smtp_read_cmd_thread
  split
  · simp [stage_advances, close, free_smtp_all]
  · split
    · simp [stage_advances, close, free_smtp_all]
    · exact smtp_reply_stage env w _

theorem write_stage (env : Env) (type : thread_type) (failed : Nat → Bool) (w : World) :
    (smtp_send_cmd_thread env type failed w).arg.stage = w.arg.stage
      ∨ (smtp_send_cmd_thread env type failed w).arg.stage = Stage.ERROR := by
  unfold smtp_send_cmd_thread
  split
  · simp [close, free_smtp_all]
  · cases h : w.arg.stage <;> simp only [thread_add_read, close, free_smtp_all] <;>
      (try cases failed 0) <;> (try cases failed 1) <;> (try cases failed 2) <;>
      simp [send, h]

/-- C10: over the fixed order `CONNECTION < HELO < MAIL < RCPT < DATA < BODY <
QUIT`, every step of `smtp_read_cmd_thread` and of `smtp_send_cmd_thread`, from
any state and with any input, keeps the stage, moves it to a later stage of
that order, or sets it to `ERROR` (so none moves it to an earlier stage), and a
step taken in the stage `ERROR` leaves the stage `ERROR`. -/
theorem stage_never_regresses (env : Env) (type : thread_type) (reads : List ReadResult)
    (junk : Int) (failed : Nat → Bool) (w : World) :
    stage_advances w.arg.stage (smtp_read_cmd_thread env type reads junk w).arg.stage
    ∧ stage_advances w.arg.stage (smtp_send_cmd_thread env type failed w).arg.stage
    ∧ (smtp_read_cmd_thread env type reads junk
          { w with arg := { w.arg with stage := Stage.ERROR } }).arg.stage = Stage.ERROR
    ∧ (smtp_send_cmd_thread env type failed
          { w with arg := { w.arg with stage := Stage.ERROR } }).arg.stage = Stage.ERROR := by
  refine ⟨read_stage env type reads junk w, ?_, ?_, ?_⟩
  · rcases write_stage env type failed w with h | h
    · exact Or.inl h
    · exact Or.inr (Or.inl h)
  · unfold smtp_read_cmd_thread
    split
    · simp [close, free_smtp_all]
    · split
      · simp [close, free_smtp_all]
      · exact smtp_reply_stage_error env _ _ rfl
  · unfold smtp_send_cmd_thread
    split
    · simp [close, free_smtp_all]
    · simp [close, free_smtp_all]

/-! ## The reply parser -/

theorem has_crlf_cons (c : Int) (l : List Int) (h : has_crlf (c :: l) = false) :
    has_crlf l = false ∧ ¬ (c = 13 ∧ l.head? = some 10) := by
  simp only [has_crlf, Bool.or_eq_false_iff, Bool.and_eq_false_imp, beq_iff_eq] at h
  refine ⟨h.2, ?_⟩
  rintro ⟨h1, h2⟩
  have := h.1 h1
  simp [h2] at this

theorem strstr_crlf_line (l rest : List Int) (hl : has_crlf l = false) (h0 : (0 : Int) ∉ l) :
    strstr_crlf (l ++ 13 :: 10 :: rest) = some l.length := by
  induction l with
  | nil => simp [strstr_crlf]
  | cons c t ih =>
    obtain ⟨ht, hc⟩ := has_crlf_cons c t hl
    have hc0 : c ≠ 0 := fun h => h0 (by simp [h])
    have ht0 : (0 : Int) ∉ t := fun h => h0 (by simp [h])
    have hc' : ¬ (c = 13 ∧ (t ++ 13 :: 10 :: rest).head? = some 10) := by
      rintro ⟨h1, h2⟩
      cases t with
      | nil => simp at h2
      | cons d t' => exact hc ⟨h1, by simpa using h2⟩
    show strstr_crlf (c :: (t ++ 13 :: 10 :: rest)) = _
    rw [strstr_crlf, if_neg hc0, if_neg hc', ih ht ht0]
    rfl

theorem strstr_crlf_some (x : List Int) (p : Nat) (h : strstr_crlf x = some p) :
    ∃ l rest, x = l ++ 13 :: 10 :: rest ∧ l.length = p ∧ (0 : Int) ∉ l ∧ has_crlf l = false := by
  induction x generalizing p with
  | nil => simp [strstr_crlf] at h
  | cons c t ih =>
    simp only [strstr_crlf] at h
    split at h
    · cases h
    · rename_i hc0
      split at h
      · rename_i hc
        cases h
        cases t with
        | nil => simp at hc
        | cons d t' =>
          simp at hc
          exact ⟨[], t', by simp [hc.1, hc.2], rfl, by simp, rfl⟩
      · rename_i hc
        cases hq : strstr_crlf t with
        | none => simp [hq] at h
        | some q =>
          simp [hq] at h
          obtain ⟨l, rest, hx, hlen, hl0, hlc⟩ := ih q hq
          refine ⟨c :: l, rest, by simp [hx], by simp [hlen, h], ?_, ?_⟩
          · simp only [List.mem_cons, not_or]
            exact ⟨fun h => hc0 h.symm, hl0⟩
          · simp only [has_crlf, Bool.or_eq_false_iff, hlc, and_true]
            cases hb : (c == 13 && l.head? == some 10) with
            | false => rfl
            | true =>
              exfalso
              simp only [Bool.and_eq_true, beq_iff_eq] at hb
              apply hc
              refine ⟨hb.1, ?_⟩
              rw [hx]
              cases l with
              | nil => simp at hb
              | cons e l' => simpa using hb.2

theorem char_at_append (l r : List Int) (junk : Int) (i : Nat) (c : Int)
    (h : l.get? i = some c) : char_at (l ++ r) junk i = c := by
  have hi : i < l.length := by
    by_contra hn
    rw [List.get?_eq_none.mpr (by omega)] at h
    cases h
  rw [char_at, List.get?_eq_getElem?, List.getElem?_append_left hi, ← List.get?_eq_getElem?, h]

theorem parse_loop_fuel (junk : Int) (f1 f2 : Nat) (x : List Int)
    (h1 : x.length < f1) (h2 : x.length < f2) :
    parse_loop junk f1 x = parse_loop junk f2 x := by
  induction f1 generalizing f2 x with
  | zero => omega
  | succ n ih =>
    cases f2 with
    | zero => omega
    | succ m =>
      simp only [parse_loop]
      split
      · rfl
      · rename_i hne
        cases hp : strstr_crlf x with
        | none => rfl
        | some p =>
          simp only []
          split
          · obtain ⟨l, rest, hx, hlen, _, _⟩ := strstr_crlf_some x p hp
            have hd : (x.drop (p + 2)).length + 2 ≤ x.length := by
              rw [hx]; simp; omega
            exact ih m (x.drop (p + 2)) (by omega) (by omega)
          · rfl

theorem smtp_parse_eq (junk : Int) (x : List Int) :
    smtp_parse junk x =
      if x.length = 0 then some (Parsed.done (-1) x)
      else
        match strstr_crlf x with
        | none => some (Parsed.more x)
        | some p =>
          if char_at x junk 3 = 45 then smtp_parse junk (x.drop (p + 2))
          else some (Parsed.done (status_of x junk) (x.drop (p + 2))) := by
  unfold smtp_parse
  simp only [parse_loop]
  split
  · rfl
  · cases hp : strstr_crlf x with
    | none => rfl
    | some p =>
      simp only []
      split
      · obtain ⟨l, rest, hx, hlen, _, _⟩ := strstr_crlf_some x p hp
        have hd : (x.drop (p + 2)).length + 2 ≤ x.length := by
          rw [hx]; simp; omega
        exact parse_loop_fuel junk x.length ((x.drop (p + 2)).length + 1) (x.drop (p + 2))
          (by omega) (by omega)
      · rfl

theorem char_at_line (line rest : List Int) (junk : Int) (i : Nat) (h : i < line.length) :
    char_at (line ++ rest) junk i = line.getD i 0 := by
  have hg : line.get? i = some (line.getD i 0) := by
    rw [List.getD_eq_getElem?_getD, List.get?_eq_getElem?, List.getElem?_eq_getElem h]
    rfl
  exact char_at_append line rest junk i _ hg

theorem status_of_line (line rest : List Int) (junk : Int) (h : 3 ≤ line.length) :
    status_of (line ++ rest) junk = line_status line := by
  unfold status_of line_status
  rw [char_at_line line rest junk 0 (by omega), char_at_line line rest junk 1 (by omega),
    char_at_line line rest junk 2 (by omega)]
  ring

theorem drop_line (l rest : List Int) : (l ++ 13 :: 10 :: rest).drop (l.length + 2) = rest := by
  have : l ++ 13 :: 10 :: rest = (l ++ [13, 10]) ++ rest := by simp
  rw [this, List.drop_append_of_le_length (by simp)]
  simp

theorem line_ne_nil (l rest : List Int) : ¬ (l ++ 13 :: 10 :: rest).length = 0 := by
  simp

/-- A continuation line free of NUL bytes at the head of the data is skipped. -/
theorem smtp_parse_skip (junk : Int) (l rest : List Int) (hl : is_continuation l)
    (h0 : (0 : Int) ∉ l) :
    smtp_parse junk (l ++ CRLF ++ rest) = smtp_parse junk rest := by
  have hx : l ++ CRLF ++ rest = l ++ 13 :: 10 :: rest := by simp [CRLF]
  rw [hx, smtp_parse_eq, if_neg (line_ne_nil l rest), strstr_crlf_line l rest hl.1 h0]
  simp only []
  rw [if_pos (char_at_append l _ junk 3 45 hl.2), drop_line]

/-- A final line free of NUL bytes at the head of the data yields its status and
is consumed. -/
theorem smtp_parse_final (junk : Int) (l rest : List Int) (hl : is_final l)
    (h0 : (0 : Int) ∉ l) :
    smtp_parse junk (l ++ CRLF ++ rest)
      = some (Parsed.done (line_status (l ++ CRLF)) rest) := by
  have hx : l ++ CRLF ++ rest = l ++ 13 :: 10 :: rest := by simp [CRLF]
  have hlen : 4 ≤ (l ++ CRLF).length := by have := hl.2.1; simp [CRLF]; omega
  have h3 : char_at (l ++ CRLF ++ rest) junk 3 ≠ 45 := by
    rw [char_at_line (l ++ CRLF) rest junk 3 (by omega)]
    intro h
    apply hl.2.2
    by_cases h4 : 3 < l.length
    · rw [List.getD_eq_getElem?_getD, List.getElem?_append_left h4,
        List.getElem?_eq_getElem h4] at h
      rw [List.get?_eq_getElem?, List.getElem?_eq_getElem h4]
      simpa using h
    · exfalso
      have hl2 := hl.2.1
      rw [List.getD_eq_getElem?_getD, List.getElem?_append_right (by omega)] at h
      have h23 : l.length = 2 ∨ l.length = 3 := by omega
      rcases h23 with h23 | h23 <;> simp [h23, CRLF] at h
  rw [smtp_parse_eq, if_neg (by rw [hx]; exact line_ne_nil l rest)]
  rw [show strstr_crlf (l ++ CRLF ++ rest) = some l.length from by
    rw [hx]; exact strstr_crlf_line l rest hl.1 h0]
  simp only []
  rw [if_neg h3, status_of_line (l ++ CRLF) rest junk (by omega)]
  rw [hx, drop_line]

theorem smtp_parse_response (junk : Int) (conts : List (List Int)) (final rest : List Int)
    (hconts : ∀ l ∈ conts, is_continuation l ∧ (0 : Int) ∉ l) (hfinal : is_final final)
    (h0 : (0 : Int) ∉ final) :
    smtp_parse junk (response conts final ++ rest)
      = some (Parsed.done (line_status (final ++ CRLF)) rest) := by
  induction conts with
  | nil => simpa [response, cat_lines] using smtp_parse_final junk final rest hfinal h0
  | cons l ls ih =>
    have h1 := hconts l (by simp)
    have : response (l :: ls) final ++ rest = l ++ CRLF ++ (response ls final ++ rest) := by
      simp [response, cat_lines]
    rw [this, smtp_parse_skip junk l _ h1.1 h1.2]
    exact ih (fun l hl => hconts l (by simp [hl]))

/-- C4, as amended: for a receive buffer made of continuation lines followed by
one CR LF terminated line whose fourth character is not `-`, none of the lines
holding a NUL byte, the parse loop returns the status
`100*(c0-'0') + 10*(c1-'0') + (c2-'0')` of the first three characters of that
final line (the decimal value when they are digits) and consumes the whole
buffer; the handler then applies the stage switch once, with that status, so no
continuation line contributes to the status or causes a transition. -/
theorem parse_final_line_status (env : Env) (junk : Int) (conts : List (List Int))
    (final : List Int) (w : World)
    (hconts : ∀ l ∈ conts, is_continuation l ∧ (0 : Int) ∉ l) (hfinal : is_final final)
    (h0 : (0 : Int) ∉ final) (hbuf : w.arg.buffer = response conts final) :
    smtp_parse junk (response conts final)
        = some (Parsed.done (line_status (final ++ CRLF)) [])
    ∧ smtp_read_cmd_thread env thread_type.THREAD_READ [ReadResult.eagain] junk w
        = (if line_status (final ++ CRLF) = -1 then
            thread_add_read { w with arg := { w.arg with buffer := [] } }
          else smtp_switch env (line_status (final ++ CRLF))
            { w with arg := { w.arg with buffer := [] } })
    ∧ ∀ (d0 d1 d2 : Int) (rest : List Int),
        line_status ((48 + d0) :: (48 + d1) :: (48 + d2) :: rest)
          = 100 * d0 + 10 * d1 + d2 := by
  have hp := smtp_parse_response junk conts final [] hconts hfinal h0
  rw [List.append_nil] at hp
  refine ⟨hp, ?_, ?_⟩
  · simp only [smtp_read_cmd_thread, read_loop, hbuf, hp, smtp_reply]
    simp
  · intro d0 d1 d2 rest
    simp [line_status]

/-- Witness of C4: the reply `250-a` CR LF `250 ok` CR LF. -/
theorem parse_final_line_status_witness :
    smtp_parse 0 (response [[50, 53, 48, 45, 97]] [50, 53, 48, 32, 111, 107])
      = some (Parsed.done (line_status ([50, 53, 48, 32, 111, 107] ++ CRLF)) []) :=
  (parse_final_line_status
    { conf_data := { email := [], email_from := "", smtp_server := 0,
                     smtp_connection_to := 0, lvs_id := none },
      SMTP_BUFFER_LENGTH := 512, SMTP_BUFFER_MAX := 1024, MAX_HEADERS_LENGTH := 256,
      MAX_BODY_LENGTH := 512, local_name := none }
    0 [[50, 53, 48, 45, 97]] [50, 53, 48, 32, 111, 107]
    { arg := { stage := Stage.HELO, email_it := 0, subject := "", body := "",
               buffer := response [[50, 53, 48, 45, 97]] [50, 53, 48, 32, 111, 107] },
      freed := 0, closed := 0, sockets := 0, sent := [], pending := [] }
    (by decide) (by decide) (by decide) rfl).1

/-- Counterexample to C4 as stated: the buffer `250 ` NUL CR LF is one CR LF
terminated line whose fourth character is not `-`, yet the parse loop returns no
status for it, because `strstr` stops at the NUL byte. -/
theorem parse_nul_counterexample :
    ¬ (∀ (junk : Int) (conts : List (List Int)) (final : List Int),
        (∀ l ∈ conts, is_continuation l) → is_final final →
        smtp_parse junk (response conts final)
          = some (Parsed.done (line_status (final ++ CRLF)) [])) := by
  intro h
  have := h 0 [] [50, 53, 48, 32, 0] (by decide) (by decide)
  revert this
  decide

/-! ## Fragmented replies -/

theorem smtp_parse_more (junk : Int) (x : List Int) (hx : x ≠ [])
    (h : strstr_crlf x = none) : smtp_parse junk x = some (Parsed.more x) := by
  rw [smtp_parse_eq, if_neg (by simpa using hx), h]

theorem smtp_parse_nil (junk : Int) : smtp_parse junk [] = some (Parsed.done (-1) []) := by
  rw [smtp_parse_eq]; rfl

theorem read_loop_one (env : Env) (c buf : List Int) (hc : c ≠ [])
    (hlen : buf.length < env.SMTP_BUFFER_MAX) :
    read_loop env [ReadResult.data c] buf = some (buf ++ c) := by
  have h1 : ¬ c.length = 0 := by simpa using hc
  have h2 : ¬ buf.length ≥ env.SMTP_BUFFER_MAX := by omega
  simp only [read_loop, if_neg h1, if_neg h2]
  split <;> rfl

theorem fire_readable (env : Env) (w : World) (c : List Int) (j : Int)
    (hpend : w.pending = [Reg.read_cmd]) (hc : c ≠ [])
    (hlen : w.arg.buffer.length < env.SMTP_BUFFER_MAX) :
    fire env w (Event.readable [ReadResult.data c] j)
      = smtp_reply env { w with pending := [] } (smtp_parse j (w.arg.buffer ++ c)) := by
  simp only [fire, hpend, smtp_read_cmd_thread]
  rw [if_neg (by decide), read_loop_one env c _ hc hlen]

theorem smtp_reply_no_status (env : Env) (w : World) (p : Option Parsed) (f : List Int)
    (h : p = some (Parsed.more f) ∨ p = some (Parsed.done (-1) f)) :
    smtp_reply env w p = thread_add_read { w with arg := { w.arg with buffer := f } } := by
  rcases h with h | h <;> subst h <;> simp [smtp_reply]

theorem run_cons (env : Env) (w : World) (e : Event) (es : List Event) :
    run env w (e :: es) = run env (fire env w e) es := rfl

theorem run_append (env : Env) (w : World) (es1 es2 : List Event) :
    run env w (es1 ++ es2) = run env (run env w es1) es2 := by
  simp [run, List.foldl_append]

theorem write_stages_append (env : Env) (w : World) (es1 es2 : List Event) :
    write_stages env w (es1 ++ es2)
      = write_stages env w es1 ++ write_stages env (run env w es1) es2 := by
  induction es1 generalizing w with
  | nil => rfl
  | cons e es ih =>
    have h1 : ∀ (w : World) (l : List Event), write_stages env w (e :: l)
        = (match w.pending, e with
          | Reg.write_cmd :: _, Event.writable _ => [w.arg.stage]
          | _, _ => []) ++ write_stages env (fire env w e) l := fun _ _ => rfl
    rw [List.cons_append, h1, h1, run_cons, ih, List.append_assoc]

theorem send_ok (cmd : Cmd) (w : World) :
    send cmd false w = { w with sent := w.sent ++ [cmd] } := by
  simp [send]

/-- The write phase with every `send` successful, outside the stage `ERROR`:
the commands of the stage are sent and a read is registered. -/
theorem write_ok (env : Env) (w : World) (hs : w.arg.stage ≠ Stage.ERROR) :
    smtp_send_cmd_thread env thread_type.THREAD_WRITE (fun _ => false) w
      = thread_add_read { w with sent := w.sent ++ stage_cmds env w.arg } := by
  unfold smtp_send_cmd_thread
  rw [if_neg (by decide)]
  cases h : w.arg.stage <;> simp [send_ok, stage_cmds, h, thread_add_read] at hs ⊢

/-- One cycle outside the stage `ERROR`, answered with a status other than
`-1`: the commands of the stage are sent and the stage switch runs once. -/
theorem exchange_run (env : Env) (w : World) (r : List Int) (j : Int) (code : Int)
    (hmax : 0 < env.SMTP_BUFFER_MAX) (hpend : w.pending = [Reg.write_cmd])
    (hbuf : w.arg.buffer = []) (hs : w.arg.stage ≠ Stage.ERROR)
    (hans : answers code r) (hcode : code ≠ -1) :
    run env w (exchange (r, j))
        = smtp_switch env code
            { w with sent := w.sent ++ stage_cmds env w.arg, pending := [] }
    ∧ write_stages env w (exchange (r, j)) = [w.arg.stage] := by
  obtain ⟨conts, final, hconts, hfinal, h0, hstat, hr⟩ := hans
  have hrne : r ≠ [] := by rw [hr]; simp [response, CRLF]
  have hw1 : fire env w (Event.writable (fun _ => false))
      = thread_add_read { w with sent := w.sent ++ stage_cmds env w.arg, pending := [] } := by
    simp only [fire, hpend]
    rw [write_ok env { w with pending := [] } hs]
  constructor
  · simp only [exchange, run_cons, hw1]
    rw [fire_readable env _ r j (by simp [thread_add_read]) hrne
      (by simp [thread_add_read, hbuf]; exact hmax)]
    simp only [thread_add_read, hbuf, List.nil_append]
    have hp := smtp_parse_response j conts final [] hconts hfinal h0
    rw [List.append_nil, ← hr, hstat] at hp
    have harg : ({ w.arg with buffer := [] } : smtp_thread_arg) = w.arg := by
      rw [← hbuf]
    rw [hp]
    simp only [smtp_reply, if_neg hcode, harg]
    rfl
  · simp [exchange, write_stages, hpend, hw1, thread_add_read]

theorem next_stage_rcpt (env : Env) (a : smtp_thread_arg) (h : a.stage = Stage.RCPT) :
    next_stage env 250 a
      = { a with
          email_it := a.email_it + 1
          stage := if a.email_it + 1 < env.conf_data.email.length then Stage.RCPT
            else Stage.DATA } := by
  simp only [next_stage, h, fetch_next_email, list_element]
  by_cases hlt : a.email_it + 1 < env.conf_data.email.length
  · rw [List.get?_eq_get hlt]; simp [hlt, ← h]
  · rw [List.get?_eq_none.mpr (by omega)]; simp [hlt]

/-- One cycle outside the stages `QUIT` and `ERROR`, answered with a status
other than `-1`: the commands of the stage are sent, the stage switch assigns
the next stage, and the write phase is registered again. -/
theorem exchange_next (env : Env) (w : World) (r : List Int) (j : Int) (code : Int)
    (hmax : 0 < env.SMTP_BUFFER_MAX) (hpend : w.pending = [Reg.write_cmd])
    (hbuf : w.arg.buffer = []) (hs : w.arg.stage ≠ Stage.ERROR)
    (hq : w.arg.stage ≠ Stage.QUIT) (hans : answers code r) (hcode : code ≠ -1) :
    run env w (exchange (r, j))
      = { w with sent := w.sent ++ stage_cmds env w.arg, arg := next_stage env code w.arg } := by
  rw [(exchange_run env w r j code hmax hpend hbuf hs hans hcode).1]
  unfold smtp_switch
  cases h : w.arg.stage <;> simp [h, thread_add_write, hpend] at hq ⊢

theorem exchanges_append (rs1 rs2 : List (List Int × Int)) :
    exchanges (rs1 ++ rs2) = exchanges rs1 ++ exchanges rs2 := by
  induction rs1 with
  | nil => rfl
  | cons r rs ih => simp [exchanges, ih]

theorem drop_take_succ (l : List String) (k n : Nat) (e : String) (h : l.get? k = some e) :
    (l.drop k).take (n + 1) = e :: (l.drop (k + 1)).take n := by
  have hk : k < l.length := by
    by_contra hn
    rw [List.get?_eq_none.mpr (by omega)] at h
    cases h
  rw [List.get?_eq_getElem?, List.getElem?_eq_getElem hk] at h
  rw [List.drop_eq_getElem_cons hk, List.take_succ_cons]
  simp at h
  rw [h]

/-- The recipient loop: from the stage `RCPT` with the cursor at an existing
recipient, `n` cycles each answered with 250 send the next `n` recipients in
list order, advance the cursor by `n`, and leave the stage `RCPT` exactly when
the cursor reaches the end of the list. -/
theorem rcpt_run (env : Env) (hmax : 0 < env.SMTP_BUFFER_MAX)
    (replies : List (List Int × Int)) (w : World)
    (hpend : w.pending = [Reg.write_cmd]) (hbuf : w.arg.buffer = [])
    (hs : w.arg.stage = Stage.RCPT) (hk : w.arg.email_it < env.conf_data.email.length)
    (hn : w.arg.email_it + replies.length ≤ env.conf_data.email.length)
    (hans : ∀ r ∈ replies, answers 250 r.1) :
    run env w (exchanges replies)
        = { w with
            sent := w.sent ++ (((env.conf_data.email.drop w.arg.email_it).take
                      replies.length).map (fun e => Cmd.SMTP_RCPT_CMD (some e)))
            arg := { w.arg with
              email_it := w.arg.email_it + replies.length
              stage := if w.arg.email_it + replies.length < env.conf_data.email.length
                then Stage.RCPT else Stage.DATA } }
    ∧ write_stages env w (exchanges replies) = List.replicate replies.length Stage.RCPT := by
  induction replies generalizing w with
  | nil =>
    constructor
    · simp only [exchanges, run, List.foldl_nil, List.length_nil, Nat.add_zero, List.take_zero,
        List.map_nil, List.append_nil, if_pos hk, ← hs]
    · rfl
  | cons r rs ih =>
    obtain ⟨r, j⟩ := r
    have hr := hans (r, j) (by simp)
    have hget : env.conf_data.email.get? w.arg.email_it
        = some (env.conf_data.email.get ⟨w.arg.email_it, hk⟩) := List.get?_eq_get hk
    have h1 := exchange_next env w r j 250 hmax hpend hbuf (by rw [hs]; decide)
      (by rw [hs]; decide) hr (by decide)
    have hst := (exchange_run env w r j 250 hmax hpend hbuf (by rw [hs]; decide) hr
      (by decide)).2
    rw [next_stage_rcpt env w.arg hs] at h1
    have hcmd : stage_cmds env w.arg
        = [Cmd.SMTP_RCPT_CMD (some (env.conf_data.email.get ⟨w.arg.email_it, hk⟩))] := by
      simp [stage_cmds, hs, fetch_next_email, list_element, hget]
    rw [hcmd] at h1
    simp only [exchanges, run_append, write_stages_append, h1, hst, List.length_cons]
    by_cases hrs : rs = []
    · subst hrs
      constructor
      · simp only [exchanges, run, List.foldl_nil, List.length_nil, Nat.zero_add]
        rw [drop_take_succ _ _ 0 _ hget]
        simp
      · simp [exchanges, write_stages, hs]
    · have hlen : 0 < rs.length := List.length_pos.mpr hrs
      simp only [List.length_cons] at hn
      have hlt : w.arg.email_it + 1 < env.conf_data.email.length := by omega
      obtain ⟨ih1, ih2⟩ := ih
        { w with
          sent := w.sent ++ [Cmd.SMTP_RCPT_CMD (some (env.conf_data.email.get
            ⟨w.arg.email_it, hk⟩))]
          arg := { w.arg with
            email_it := w.arg.email_it + 1
            stage := if w.arg.email_it + 1 < env.conf_data.email.length then Stage.RCPT
              else Stage.DATA } }
        hpend hbuf (by simp [hlt]) hlt (by simp; omega)
        (fun r hr => hans r (by simp [hr]))
      constructor
      · rw [ih1, drop_take_succ _ _ rs.length _ hget]
        simp [Nat.add_assoc, Nat.add_comm 1 rs.length]
      · rw [ih2, hs]
        simp [List.replicate_succ]

theorem answers_single (code : Int) (final : List Int) (hf : is_final final)
    (h0 : (0 : Int) ∉ final) (hc : line_status (final ++ CRLF) = code) :
    answers code (response [] final) :=
  ⟨[], final, by simp, hf, h0, hc, rfl⟩

/-- C2: for every recipient list of length `N >= 1`, in a run from the stage
`RCPT` with the cursor at 0 in which every `send` succeeds and the server
answers 250 to every recipient command, after `k <= N` command and reply cycles
the write phase has sent exactly `k` `RCPT TO` commands, naming the first `k`
recipients in list order, the cursor is `k`, and the stage is still `RCPT` when
`k < N` and `DATA` when `k = N`: exactly `N` commands are sent before the stage
becomes `DATA`, and the cursor is `N` then. -/
theorem rcpt_commands (env : Env) (w : World) (replies : List (List Int × Int)) (k : Nat)
    (hmax : 0 < env.SMTP_BUFFER_MAX) (hN : 1 ≤ env.conf_data.email.length)
    (hlen : replies.length = env.conf_data.email.length)
    (hs : w.arg.stage = Stage.RCPT) (hit : w.arg.email_it = 0) (hbuf : w.arg.buffer = [])
    (hpend : w.pending = [Reg.write_cmd]) (hans : ∀ r ∈ replies, answers 250 r.1)
    (hk : k ≤ env.conf_data.email.length) :
    (run env w (exchanges (replies.take k))).sent
        = w.sent ++ (env.conf_data.email.take k).map (fun e => Cmd.SMTP_RCPT_CMD (some e))
    ∧ (run env w (exchanges (replies.take k))).arg.email_it = k
    ∧ (run env w (exchanges (replies.take k))).arg.stage
        = (if k < env.conf_data.email.length then Stage.RCPT else Stage.DATA)
    ∧ write_stages env w (exchanges (replies.take k)) = List.replicate k Stage.RCPT := by
  have hl : (replies.take k).length = k := by simp [List.length_take]; omega
  obtain ⟨h1, h2⟩ := rcpt_run env hmax (replies.take k) w hpend hbuf hs (by omega)
    (by rw [hl, hit]; omega) (fun r hr => hans r (List.mem_of_mem_take hr))
  rw [h1, h2, hl, hit]
  simp

/-- Witness of C2: two recipients, two replies `250 ok`. -/
theorem rcpt_commands_witness :
    (run sample_env (sample_world Stage.RCPT [Reg.write_cmd])
        (exchanges ([(response [] line_250, 0), (response [line_250_cont] line_250, 0)].take 2))).sent
        = (sample_world Stage.RCPT [Reg.write_cmd]).sent
          ++ (sample_env.conf_data.email.take 2).map (fun e => Cmd.SMTP_RCPT_CMD (some e))
    ∧ (run sample_env (sample_world Stage.RCPT [Reg.write_cmd])
        (exchanges ([(response [] line_250, 0),
          (response [line_250_cont] line_250, 0)].take 2))).arg.email_it = 2
    ∧ (run sample_env (sample_world Stage.RCPT [Reg.write_cmd])
        (exchanges ([(response [] line_250, 0),
          (response [line_250_cont] line_250, 0)].take 2))).arg.stage
        = (if 2 < sample_env.conf_data.email.length then Stage.RCPT else Stage.DATA)
    ∧ write_stages sample_env (sample_world Stage.RCPT [Reg.write_cmd])
        (exchanges ([(response [] line_250, 0),
          (response [line_250_cont] line_250, 0)].take 2)) = List.replicate 2 Stage.RCPT :=
  rcpt_commands sample_env (sample_world Stage.RCPT [Reg.write_cmd])
    [(response [] line_250, 0), (response [line_250_cont] line_250, 0)] 2
    (by decide) (by decide) (by decide) rfl rfl rfl rfl
    (by
      intro r hr
      simp only [List.mem_cons, List.mem_singleton, List.not_mem_nil, or_false] at hr
      rcases hr with hr | hr
      · rw [hr]; exact answers_single 250 line_250 (by decide) (by decide) (by decide)
      · rw [hr]
        exact ⟨[line_250_cont], line_250, by decide, by decide, by decide, by decide, rfl⟩)
    (by decide)

/-- Once nothing is registered, no event fires anything. -/
theorem run_idle (env : Env) (w : World) (es : List Event) (h : w.pending = []) :
    run env w es = w := by
  induction es with
  | nil => rfl
  | cons e es ih =>
    rw [run_cons]
    have : fire env w e = w := by simp [fire, h]
    rw [this, ih]

/-- The cycles of a successful run up to the reply to the body: every stage
from `CONNECTION` to `BODY` is passed in order, with one cycle per recipient
in the stage `RCPT`. -/
theorem run_to_quit (env : Env) (w : World)
    (r_banner r_helo r_mail r_data r_body : List Int × Int)
    (rcpts : List (List Int × Int))
    (hmax : 0 < env.SMTP_BUFFER_MAX) (hN : 1 ≤ env.conf_data.email.length)
    (hlen : rcpts.length = env.conf_data.email.length)
    (hs : w.arg.stage = Stage.CONNECTION) (hit : w.arg.email_it = 0)
    (hbuf : w.arg.buffer = []) (hpend : w.pending = [Reg.write_cmd])
    (h1 : answers 220 r_banner.1) (h2 : answers 250 r_helo.1) (h3 : answers 250 r_mail.1)
    (h4 : ∀ r ∈ rcpts, answers 250 r.1) (h5 : answers 354 r_data.1)
    (h6 : answers 250 r_body.1) :
    run env w (exchanges ([r_banner, r_helo, r_mail] ++ rcpts ++ [r_data, r_body]))
        = { w with
            sent := w.sent ++ [Cmd.SMTP_HELO_CMD env.local_name,
                Cmd.SMTP_MAIL_CMD env.conf_data.email_from]
              ++ env.conf_data.email.map (fun e => Cmd.SMTP_RCPT_CMD (some e))
              ++ [Cmd.SMTP_DATA_CMD,
                Cmd.SMTP_HEADERS_CMD env.conf_data.email_from w.arg.subject,
                Cmd.SMTP_BODY_CMD w.arg.body, Cmd.SMTP_SEND_CMD]
            arg := { w.arg with
              stage := Stage.QUIT
              email_it := env.conf_data.email.length } }
    ∧ write_stages env w (exchanges ([r_banner, r_helo, r_mail] ++ rcpts ++ [r_data, r_body]))
        = [Stage.CONNECTION, Stage.HELO, Stage.MAIL] ++ List.replicate rcpts.length Stage.RCPT
          ++ [Stage.DATA, Stage.BODY] := by
  obtain ⟨b1, j1⟩ := r_banner
  obtain ⟨b2, j2⟩ := r_helo
  obtain ⟨b3, j3⟩ := r_mail
  obtain ⟨b5, j5⟩ := r_data
  obtain ⟨b6, j6⟩ := r_body
  obtain ⟨w1, hw1⟩ : ∃ w1 : World, w1 = { w with arg := { w.arg with stage := Stage.HELO } } :=
    ⟨_, rfl⟩
  obtain ⟨w2, hw2⟩ : ∃ w2 : World, w2 = { w with
      sent := w.sent ++ [Cmd.SMTP_HELO_CMD env.local_name]
      arg := { w.arg with stage := Stage.MAIL } } := ⟨_, rfl⟩
  obtain ⟨w3, hw3⟩ : ∃ w3 : World, w3 = { w with
      sent := w.sent ++ [Cmd.SMTP_HELO_CMD env.local_name,
        Cmd.SMTP_MAIL_CMD env.conf_data.email_from]
      arg := { w.arg with stage := Stage.RCPT } } := ⟨_, rfl⟩
  obtain ⟨w4, hw4⟩ : ∃ w4 : World, w4 = { w with
      sent := w.sent ++ [Cmd.SMTP_HELO_CMD env.local_name,
          Cmd.SMTP_MAIL_CMD env.conf_data.email_from]
        ++ env.conf_data.email.map (fun e => Cmd.SMTP_RCPT_CMD (some e))
      arg := { w.arg with stage := Stage.DATA, email_it := env.conf_data.email.length } } :=
    ⟨_, rfl⟩
  obtain ⟨w5, hw5⟩ : ∃ w5 : World, w5 = { w with
      sent := w.sent ++ [Cmd.SMTP_HELO_CMD env.local_name,
          Cmd.SMTP_MAIL_CMD env.conf_data.email_from]
        ++ env.conf_data.email.map (fun e => Cmd.SMTP_RCPT_CMD (some e))
        ++ [Cmd.SMTP_DATA_CMD]
      arg := { w.arg with stage := Stage.BODY, email_it := env.conf_data.email.length } } :=
    ⟨_, rfl⟩
  have e1 : run env w (exchange (b1, j1)) = w1 := by
    rw [exchange_next env w b1 j1 220 hmax hpend hbuf (by rw [hs]; decide)
      (by rw [hs]; decide) h1 (by decide), hw1]
    simp [stage_cmds, next_stage, hs]
  have s1 : write_stages env w (exchange (b1, j1)) = [Stage.CONNECTION] := by
    rw [(exchange_run env w b1 j1 220 hmax hpend hbuf (by rw [hs]; decide) h1 (by decide)).2,
      hs]
  have e2 : run env w1 (exchange (b2, j2)) = w2 := by
    rw [exchange_next env w1 b2 j2 250 hmax (by simp [hw1, hpend]) (by simp [hw1, hbuf])
      (by simp [hw1]) (by simp [hw1]) h2 (by decide), hw2, hw1]
    simp [stage_cmds, next_stage]
  have s2 : write_stages env w1 (exchange (b2, j2)) = [Stage.HELO] := by
    rw [(exchange_run env w1 b2 j2 250 hmax (by simp [hw1, hpend]) (by simp [hw1, hbuf])
      (by simp [hw1]) h2 (by decide)).2, hw1]
  have e3 : run env w2 (exchange (b3, j3)) = w3 := by
    rw [exchange_next env w2 b3 j3 250 hmax (by simp [hw2, hpend]) (by simp [hw2, hbuf])
      (by simp [hw2]) (by simp [hw2]) h3 (by decide), hw3, hw2]
    simp [stage_cmds, next_stage]
  have s3 : write_stages env w2 (exchange (b3, j3)) = [Stage.MAIL] := by
    rw [(exchange_run env w2 b3 j3 250 hmax (by simp [hw2, hpend]) (by simp [hw2, hbuf])
      (by simp [hw2]) h3 (by decide)).2, hw2]
  obtain ⟨e4, s4⟩ : run env w3 (exchanges rcpts) = w4
      ∧ write_stages env w3 (exchanges rcpts) = List.replicate rcpts.length Stage.RCPT := by
    obtain ⟨e4, s4⟩ := rcpt_run env hmax rcpts w3 (by simp [hw3, hpend]) (by simp [hw3, hbuf])
      (by simp [hw3]) (by simp only [hw3, hit]; omega) (by simp only [hw3, hit]; omega) h4
    refine ⟨?_, s4⟩
    rw [e4, hw4, hw3]
    simp [hit, hlen]
  have e5 : run env w4 (exchange (b5, j5)) = w5 := by
    rw [exchange_next env w4 b5 j5 354 hmax (by simp [hw4, hpend]) (by simp [hw4, hbuf])
      (by simp [hw4]) (by simp [hw4]) h5 (by decide), hw5, hw4]
    simp [stage_cmds, next_stage]
  have s5 : write_stages env w4 (exchange (b5, j5)) = [Stage.DATA] := by
    rw [(exchange_run env w4 b5 j5 354 hmax (by simp [hw4, hpend]) (by simp [hw4, hbuf])
      (by simp [hw4]) h5 (by decide)).2, hw4]
  have e6 : run env w5 (exchange (b6, j6)) = { w with
      sent := w.sent ++ [Cmd.SMTP_HELO_CMD env.local_name,
          Cmd.SMTP_MAIL_CMD env.conf_data.email_from]
        ++ env.conf_data.email.map (fun e => Cmd.SMTP_RCPT_CMD (some e))
        ++ [Cmd.SMTP_DATA_CMD,
          Cmd.SMTP_HEADERS_CMD env.conf_data.email_from w.arg.subject,
          Cmd.SMTP_BODY_CMD w.arg.body, Cmd.SMTP_SEND_CMD]
      arg := { w.arg with stage := Stage.QUIT, email_it := env.conf_data.email.length } } := by
    rw [exchange_next env w5 b6 j6 250 hmax (by simp [hw5, hpend]) (by simp [hw5, hbuf])
      (by simp [hw5]) (by simp [hw5]) h6 (by decide), hw5]
    simp [stage_cmds, next_stage]
  have s6 : write_stages env w5 (exchange (b6, j6)) = [Stage.BODY] := by
    rw [(exchange_run env w5 b6 j6 250 hmax (by simp [hw5, hpend]) (by simp [hw5, hbuf])
      (by simp [hw5]) h6 (by decide)).2, hw5]
  have hsplit : exchanges ([(b1, j1), (b2, j2), (b3, j3)] ++ rcpts ++ [(b5, j5), (b6, j6)])
      = exchange (b1, j1) ++ (exchange (b2, j2) ++ (exchange (b3, j3)
        ++ (exchanges rcpts ++ (exchange (b5, j5) ++ exchange (b6, j6))))) := by
    simp [exchanges_append, exchanges]
  rw [hsplit]
  constructor
  · rw [run_append, e1, run_append, e2, run_append, e3, run_append, e4, run_append, e5, e6]
  · rw [write_stages_append, s1, e1, write_stages_append, s2, e2, write_stages_append, s3, e3,
      write_stages_append, s4, e4, write_stages_append, s5, e5, s6]
    simp

/-- C1, as amended: for every recipient list of length `N >= 1`, in a run that
starts at the stage `CONNECTION` with the cursor at 0 and the write phase
registered, in which every `send` succeeds and the server answers 220 to the
banner wait, 250 to `HELO`, 250 to `MAIL FROM`, 250 to each `RCPT TO`, 354 to
`DATA` and 250 to the body, the write phase runs in the stages
`CONNECTION, HELO, MAIL`, `RCPT` repeated `N` times, `DATA, BODY, QUIT`, in this
order; once the reply to `QUIT` is parsed with a status other than `-1` the
session is freed and the socket closed, each once, no callback is registered,
and no later event runs anything. -/
theorem successful_run (env : Env) (w : World)
    (r_banner r_helo r_mail r_data r_body r_quit : List Int × Int)
    (rcpts : List (List Int × Int)) (code : Int)
    (hmax : 0 < env.SMTP_BUFFER_MAX) (hN : 1 ≤ env.conf_data.email.length)
    (hlen : rcpts.length = env.conf_data.email.length)
    (hs : w.arg.stage = Stage.CONNECTION) (hit : w.arg.email_it = 0)
    (hbuf : w.arg.buffer = []) (hpend : w.pending = [Reg.write_cmd])
    (h1 : answers 220 r_banner.1) (h2 : answers 250 r_helo.1) (h3 : answers 250 r_mail.1)
    (h4 : ∀ r ∈ rcpts, answers 250 r.1) (h5 : answers 354 r_data.1)
    (h6 : answers 250 r_body.1) (h7 : answers code r_quit.1) (hcode : code ≠ -1) :
    write_stages env w
        (exchanges ([r_banner, r_helo, r_mail] ++ rcpts ++ [r_data, r_body, r_quit]))
      = [Stage.CONNECTION, Stage.HELO, Stage.MAIL]
          ++ List.replicate env.conf_data.email.length Stage.RCPT
          ++ [Stage.DATA, Stage.BODY, Stage.QUIT]
    ∧ run env w (exchanges ([r_banner, r_helo, r_mail] ++ rcpts ++ [r_data, r_body, r_quit]))
      = { w with
          sent := w.sent ++ [Cmd.SMTP_HELO_CMD env.local_name,
              Cmd.SMTP_MAIL_CMD env.conf_data.email_from]
            ++ env.conf_data.email.map (fun e => Cmd.SMTP_RCPT_CMD (some e))
            ++ [Cmd.SMTP_DATA_CMD,
              Cmd.SMTP_HEADERS_CMD env.conf_data.email_from w.arg.subject,
              Cmd.SMTP_BODY_CMD w.arg.body, Cmd.SMTP_SEND_CMD, Cmd.SMTP_QUIT_CMD]
          arg := { w.arg with stage := Stage.QUIT, email_it := env.conf_data.email.length }
          freed := w.freed + 1
          closed := w.closed + 1
          pending := [] }
    ∧ ∀ es : List Event,
        run env (run env w
          (exchanges ([r_banner, r_helo, r_mail] ++ rcpts ++ [r_data, r_body, r_quit]))) es
        = run env w
          (exchanges ([r_banner, r_helo, r_mail] ++ rcpts ++ [r_data, r_body, r_quit])) := by
  obtain ⟨e6, s6⟩ := run_to_quit env w r_banner r_helo r_mail r_data r_body rcpts hmax hN hlen
    hs hit hbuf hpend h1 h2 h3 h4 h5 h6
  obtain ⟨b7, j7⟩ := r_quit
  obtain ⟨wq, hwq⟩ : ∃ wq : World, wq = { w with
      sent := w.sent ++ [Cmd.SMTP_HELO_CMD env.local_name,
          Cmd.SMTP_MAIL_CMD env.conf_data.email_from]
        ++ env.conf_data.email.map (fun e => Cmd.SMTP_RCPT_CMD (some e))
        ++ [Cmd.SMTP_DATA_CMD,
          Cmd.SMTP_HEADERS_CMD env.conf_data.email_from w.arg.subject,
          Cmd.SMTP_BODY_CMD w.arg.body, Cmd.SMTP_SEND_CMD]
      arg := { w.arg with stage := Stage.QUIT, email_it := env.conf_data.email.length } } :=
    ⟨_, rfl⟩
  rw [← hwq] at e6
  obtain ⟨e7, s7⟩ := exchange_run env wq b7 j7 code hmax (by simp [hwq, hpend])
    (by simp [hwq, hbuf]) (by simp [hwq]) h7 hcode
  have hsplit : exchanges ([r_banner, r_helo, r_mail] ++ rcpts ++ [r_data, r_body, (b7, j7)])
      = exchanges ([r_banner, r_helo, r_mail] ++ rcpts ++ [r_data, r_body])
        ++ exchange (b7, j7) := by
    have : [r_banner, r_helo, r_mail] ++ rcpts ++ [r_data, r_body, (b7, j7)]
        = ([r_banner, r_helo, r_mail] ++ rcpts ++ [r_data, r_body]) ++ [(b7, j7)] := by simp
    rw [this, exchanges_append]
    simp [exchanges]
  have hrun : run env w
      (exchanges ([r_banner, r_helo, r_mail] ++ rcpts ++ [r_data, r_body, (b7, j7)]))
      = { w with
          sent := w.sent ++ [Cmd.SMTP_HELO_CMD env.local_name,
              Cmd.SMTP_MAIL_CMD env.conf_data.email_from]
            ++ env.conf_data.email.map (fun e => Cmd.SMTP_RCPT_CMD (some e))
            ++ [Cmd.SMTP_DATA_CMD,
              Cmd.SMTP_HEADERS_CMD env.conf_data.email_from w.arg.subject,
              Cmd.SMTP_BODY_CMD w.arg.body, Cmd.SMTP_SEND_CMD, Cmd.SMTP_QUIT_CMD]
          arg := { w.arg with stage := Stage.QUIT, email_it := env.conf_data.email.length }
          freed := w.freed + 1
          closed := w.closed + 1
          pending := [] } := by
    rw [hsplit, run_append, e6, e7, hwq]
    simp [smtp_switch, stage_cmds, close, free_smtp_all]
  refine ⟨?_, hrun, ?_⟩
  · rw [hsplit, write_stages_append, s6, e6, s7, hwq, hlen]
    simp
  · intro es
    rw [hrun]
    exact run_idle env _ es rfl

/-- Witness of C1: two recipients, single-line replies, a two-line reply to the
second recipient, and `221 ok` in reply to `QUIT`. -/
theorem successful_run_witness :
    write_stages sample_env (sample_world Stage.CONNECTION [Reg.write_cmd])
        (exchanges ([(response [] line_220, 0), (response [] line_250, 0),
            (response [] line_250, 0)]
          ++ [(response [] line_250, 0), (response [line_250_cont] line_250, 0)]
          ++ [(response [] line_354, 0), (response [] line_250, 0),
            (response [] line_221, 0)]))
      = [Stage.CONNECTION, Stage.HELO, Stage.MAIL]
          ++ List.replicate sample_env.conf_data.email.length Stage.RCPT
          ++ [Stage.DATA, Stage.BODY, Stage.QUIT] :=
  (successful_run sample_env (sample_world Stage.CONNECTION [Reg.write_cmd])
    (response [] line_220, 0) (response [] line_250, 0) (response [] line_250, 0)
    (response [] line_354, 0) (response [] line_250, 0) (response [] line_221, 0)
    [(response [] line_250, 0), (response [line_250_cont] line_250, 0)] 221
    (by decide) (by decide) (by decide) rfl rfl rfl rfl
    (answers_single 220 line_220 (by decide) (by decide) (by decide))
    (answers_single 250 line_250 (by decide) (by decide) (by decide))
    (answers_single 250 line_250 (by decide) (by decide) (by decide))
    (by
      intro r hr
      simp only [List.mem_cons, List.mem_singleton, List.not_mem_nil, or_false] at hr
      rcases hr with hr | hr
      · rw [hr]; exact answers_single 250 line_250 (by decide) (by decide) (by decide)
      · rw [hr]
        exact ⟨[line_250_cont], line_250, by decide, by decide, by decide, by decide, rfl⟩)
    (answers_single 354 line_354 (by decide) (by decide) (by decide))
    (answers_single 250 line_250 (by decide) (by decide) (by decide))
    (answers_single 221 line_221 (by decide) (by decide) (by decide))
    (by decide)).1

/-- Counterexample to C1 as stated: in the sample run the server answers
`00/ bye` CR LF to `QUIT`; the computed status is `-1`, the line is consumed, a
read is registered again and the session is not torn down. -/
theorem successful_run_counterexample :
    ¬ (∀ (env : Env) (w : World)
        (r_banner r_helo r_mail r_data r_body r_quit : List Int × Int)
        (rcpts : List (List Int × Int)) (code : Int),
        0 < env.SMTP_BUFFER_MAX → 1 ≤ env.conf_data.email.length →
        rcpts.length = env.conf_data.email.length →
        w.arg.stage = Stage.CONNECTION → w.arg.email_it = 0 → w.arg.buffer = [] →
        w.pending = [Reg.write_cmd] →
        answers 220 r_banner.1 → answers 250 r_helo.1 → answers 250 r_mail.1 →
        (∀ r ∈ rcpts, answers 250 r.1) → answers 354 r_data.1 → answers 250 r_body.1 →
        answers code r_quit.1 →
        (run env w (exchanges ([r_banner, r_helo, r_mail] ++ rcpts
            ++ [r_data, r_body, r_quit]))).pending = []
          ∧ (run env w (exchanges ([r_banner, r_helo, r_mail] ++ rcpts
            ++ [r_data, r_body, r_quit]))).freed = w.freed + 1) := by
  intro h
  have h1 := h sample_env (sample_world Stage.CONNECTION [Reg.write_cmd])
    (response [] line_220, 0) (response [] line_250, 0) (response [] line_250, 0)
    (response [] line_354, 0) (response [] line_250, 0)
    (response [] [48, 48, 47, 32, 98, 121, 101], 0)
    [(response [] line_250, 0), (response [] line_250, 0)] (-1)
    (by decide) (by decide) (by decide) rfl rfl rfl rfl
    (answers_single 220 line_220 (by decide) (by decide) (by decide))
    (answers_single 250 line_250 (by decide) (by decide) (by decide))
    (answers_single 250 line_250 (by decide) (by decide) (by decide))
    (by
      intro r hr
      simp only [List.mem_cons, List.mem_singleton, List.not_mem_nil, or_false] at hr
      rcases hr with hr | hr <;> rw [hr] <;>
        exact answers_single 250 line_250 (by decide) (by decide) (by decide))
    (answers_single 354 line_354 (by decide) (by decide) (by decide))
    (answers_single 250 line_250 (by decide) (by decide) (by decide))
    (answers_single (-1) [48, 48, 47, 32, 98, 121, 101] (by decide) (by decide) (by decide))
  revert h1
  decide

/-! ## Protocol errors -/

theorem next_stage_unexpected (env : Env) (status : Int) (a : smtp_thread_arg)
    (hq : a.stage ≠ Stage.QUIT) (he : a.stage ≠ Stage.ERROR)
    (hstatus : status ≠ expected a.stage) :
    next_stage env status a = { a with stage := Stage.ERROR } := by
  unfold next_stage
  cases h : a.stage <;> simp [h, expected] at hq he hstatus ⊢ <;> simp [hstatus]

/-- The write phase entered in the stage `ERROR`: nothing is sent or
registered, the session is freed and the socket closed. -/
theorem write_error (env : Env) (type : thread_type) (failed : Nat → Bool) (w : World)
    (h : w.arg.stage = Stage.ERROR) :
    smtp_send_cmd_thread env type failed w
      = { w with freed := w.freed + 1, closed := w.closed + 1 } := by
  unfold smtp_send_cmd_thread
  split <;> simp [h, close, free_smtp_all]

/-- C6, as amended: in every stage among `CONNECTION, HELO, MAIL, RCPT, DATA,
BODY`, for every parsed status different from the code the stage expects and
different from `-1`, `smtp_read_cmd_thread` sets the stage to `ERROR`, frees and
closes nothing, and registers exactly one write callback; the write phase that
follows, entered on a writable descriptor or on a timeout, sends no command,
frees the session and closes the socket once, and registers nothing, after which
no event runs anything and so no further command is ever sent. -/
theorem protocol_error (env : Env) (type : thread_type) (reads : List ReadResult)
    (junk : Int) (w : World) (buffer : List Int) (status : Int) (reply : List Int)
    (htype : type ≠ thread_type.THREAD_READ_TIMEOUT)
    (hread : read_loop env reads w.arg.buffer = some buffer)
    (hparse : smtp_parse junk buffer = some (Parsed.done status reply))
    (hq : w.arg.stage ≠ Stage.QUIT) (he : w.arg.stage ≠ Stage.ERROR)
    (hstatus : status ≠ expected w.arg.stage) (hm1 : status ≠ -1) :
    smtp_read_cmd_thread env type reads junk w
        = { w with
            arg := { w.arg with stage := Stage.ERROR, buffer := reply }
            pending := w.pending ++ [Reg.write_cmd] }
    ∧ (∀ (type2 : thread_type) (failed : Nat → Bool),
        smtp_send_cmd_thread env type2 failed (smtp_read_cmd_thread env type reads junk w)
          = { w with
              arg := { w.arg with stage := Stage.ERROR, buffer := reply }
              pending := w.pending ++ [Reg.write_cmd]
              freed := w.freed + 1
              closed := w.closed + 1 })
    ∧ (∀ (failed : Nat → Bool) (es : List Event),
        run env { w with pending := [Reg.read_cmd] }
            (Event.readable reads junk :: Event.writable failed :: es)
          = { w with
              arg := { w.arg with stage := Stage.ERROR, buffer := reply }
              pending := []
              freed := w.freed + 1
              closed := w.closed + 1 })
    ∧ (∀ es : List Event,
        run env { w with pending := [Reg.read_cmd] }
            (Event.readable reads junk :: Event.timeout :: es)
          = { w with
              arg := { w.arg with stage := Stage.ERROR, buffer := reply }
              pending := []
              freed := w.freed + 1
              closed := w.closed + 1 }) := by
  have hgen : ∀ w2 : World, w2.arg = w.arg → ∀ ty, ty ≠ thread_type.THREAD_READ_TIMEOUT →
      smtp_read_cmd_thread env ty reads junk w2
        = { w2 with
            arg := { w.arg with stage := Stage.ERROR, buffer := reply }
            pending := w2.pending ++ [Reg.write_cmd] } := by
    intro w2 hw2 ty hty
    simp only [smtp_read_cmd_thread, if_neg hty, hw2, hread, hparse, smtp_reply, if_neg hm1,
      smtp_switch]
    have hn := next_stage_unexpected env status { w.arg with buffer := reply } hq he hstatus
    cases h : w.arg.stage <;> simp [h, hw2, thread_add_write] at hq hn ⊢ <;> rw [hn]
  have ha := hgen w rfl type htype
  refine ⟨ha, ?_, ?_, ?_⟩
  · intro type2 failed
    rw [ha, write_error env type2 failed _ rfl]
  · intro failed es
    rw [run_cons, run_cons]
    have h1 : fire env { w with pending := [Reg.read_cmd] } (Event.readable reads junk)
        = { w with
            arg := { w.arg with stage := Stage.ERROR, buffer := reply }
            pending := [Reg.write_cmd] } := by
      simp only [fire]
      rw [hgen { w with pending := [] } rfl thread_type.THREAD_READ (by decide)]
      rfl
    rw [h1]
    simp only [fire]
    rw [write_error env _ failed _ rfl]
    exact run_idle env _ es rfl
  · intro es
    rw [run_cons, run_cons]
    have h1 : fire env { w with pending := [Reg.read_cmd] } (Event.readable reads junk)
        = { w with
            arg := { w.arg with stage := Stage.ERROR, buffer := reply }
            pending := [Reg.write_cmd] } := by
      simp only [fire]
      rw [hgen { w with pending := [] } rfl thread_type.THREAD_READ (by decide)]
      rfl
    rw [h1]
    simp only [fire]
    rw [write_error env _ _ _ rfl]
    exact run_idle env _ es rfl

/-- Witness of C6: the reply `550 no` to the `MAIL FROM` command; after the read
and one further write phase the session is torn down and only what had been
sent before has been sent, so no `RCPT TO` command. -/
theorem protocol_error_witness :
    run sample_env { sample_world Stage.MAIL [] with pending := [Reg.read_cmd] }
        [Event.readable [ReadResult.data (response [] line_550)] 0,
          Event.writable (fun _ => false)]
      = { sample_world Stage.MAIL [] with
          arg := { (sample_world Stage.MAIL []).arg with stage := Stage.ERROR, buffer := [] }
          pending := []
          freed := (sample_world Stage.MAIL []).freed + 1
          closed := (sample_world Stage.MAIL []).closed + 1 } :=
  (protocol_error sample_env thread_type.THREAD_READ
    [ReadResult.data (response [] line_550)] 0 (sample_world Stage.MAIL [])
    (response [] line_550) 550 [] (by decide) (by decide) (by decide) (by decide) (by decide)
    (by decide) (by decide)).2.2.1 (fun _ => false) []

/-- Counterexample to C6 as stated: in the stage `MAIL` the reply `00/ `
CR LF has the status `-1`, which differs from the expected 250, yet the stage
stays `MAIL` and a read, not a write, is registered. -/
theorem protocol_error_counterexample :
    ¬ (∀ (env : Env) (reads : List ReadResult) (junk : Int) (w : World) (buffer : List Int)
        (status : Int) (reply : List Int),
        read_loop env reads w.arg.buffer = some buffer →
        smtp_parse junk buffer = some (Parsed.done status reply) →
        w.arg.stage ≠ Stage.QUIT → w.arg.stage ≠ Stage.ERROR →
        status ≠ expected w.arg.stage →
        (smtp_read_cmd_thread env thread_type.THREAD_READ reads junk w).arg.stage = Stage.ERROR
          ∧ (smtp_read_cmd_thread env thread_type.THREAD_READ reads junk w).pending
              = w.pending ++ [Reg.write_cmd]) := by
  intro h
  have := h sample_env [ReadResult.data [48, 48, 47, 32, 13, 10]] 0 (sample_world Stage.MAIL [])
    [48, 48, 47, 32, 13, 10] (-1) [] (by decide) (by decide) (by decide) (by decide)
    (by decide)
  revert this
  decide

/-! ## Teardown paths -/

/-- C7, the failing path: with a relay configured, when `socket` returns no
descriptor `smtp_connect_thread` returns without `free_smtp_all`; the event is
consumed, nothing is registered, so no later event runs anything and the session
is never freed. -/
theorem socket_failure_leak (env : Env) (w : World) (status : connect_result)
    (es : List Event) (hrelay : env.conf_data.smtp_server ≠ 0) :
    run env { w with pending := [Reg.event_connect] } (Event.immediate false status :: es)
      = { w with pending := [] } := by
  rw [run_cons]
  have h : fire env { w with pending := [Reg.event_connect] } (Event.immediate false status)
      = { w with pending := [] } := by
    simp [fire, smtp_connect_thread, hrelay]
  rw [h]
  exact run_idle env _ es rfl

/-- Witness of the failing path of C7: the sample session, whose relay is
configured; after the connect event nothing is pending and nothing was freed. -/
theorem socket_failure_leak_witness :
    run sample_env { sample_world Stage.CONNECTION [] with pending := [Reg.event_connect] }
        (Event.immediate false connect_result.connect_success :: [])
      = { sample_world Stage.CONNECTION [] with pending := [] } :=
  socket_failure_leak sample_env (sample_world Stage.CONNECTION [])
    connect_result.connect_success [] (by decide)

/-! ## Overlong replies -/

theorem strstr_crlf_replicate (n : Nat) : strstr_crlf (List.replicate n 97) = none := by
  induction n with
  | zero => rfl
  | succ n ih =>
    rw [List.replicate_succ, strstr_crlf, if_neg (by decide), if_neg (by simp), ih]
    rfl

/-- The read handler on a buffer without terminator when `read` returns 0: the
buffer is kept and a read is registered again. -/
theorem read_zero_keeps (env : Env) (w : World) (bs : List Int) (junk : Int)
    (hbs : bs ≠ []) (hno : strstr_crlf bs = none) (hbuf : w.arg.buffer = bs)
    (hpend : w.pending = [Reg.read_cmd]) :
    fire env w (Event.readable [ReadResult.data []] junk) = w := by
  simp only [fire, hpend, smtp_read_cmd_thread]
  rw [if_neg (by decide)]
  simp only [read_loop, List.length_nil, if_true, hbuf, smtp_parse_more junk bs hbs hno,
    smtp_reply, thread_add_read, List.nil_append]
  cases w with
  | mk arg freed closed sockets sent pending =>
    cases arg
    simp_all

/-- C9, the failing path: a reply whose first `SMTP_BUFFER_LENGTH` bytes hold no
CR LF.  The first `read` asks for `SMTP_BUFFER_LENGTH` bytes and gets them, the
next asks for none and returns 0; the parse finds no terminator and a read is
registered.  Every later invocation asks for `SMTP_BUFFER_LENGTH - buflen = 0`
bytes, gets 0, and registers a read again: after any number of invocations the
buffer is still full, nothing is freed or closed, and a read is pending. -/
theorem full_buffer_spins (env : Env) (w : World) (bs : List Int) (junk : Int) (n : Nat)
    (hlen : bs.length = env.SMTP_BUFFER_LENGTH) (hpos : 0 < env.SMTP_BUFFER_LENGTH)
    (hmax : 0 < env.SMTP_BUFFER_MAX) (hno : strstr_crlf bs = none)
    (hbuf : w.arg.buffer = []) :
    run env { w with pending := [Reg.read_cmd] }
        (Event.readable [ReadResult.data bs, ReadResult.data []] junk
          :: List.replicate n (Event.readable [ReadResult.data []] junk))
      = { w with arg := { w.arg with buffer := bs }, pending := [Reg.read_cmd] } := by
  have hbs : bs ≠ [] := by
    intro h
    rw [h] at hlen
    simp at hlen
    omega
  have h1 : fire env { w with pending := [Reg.read_cmd] }
      (Event.readable [ReadResult.data bs, ReadResult.data []] junk)
      = { w with arg := { w.arg with buffer := bs }, pending := [Reg.read_cmd] } := by
    simp only [fire, smtp_read_cmd_thread]
    rw [if_neg (by decide)]
    have h2 : ¬ bs.length = 0 := by omega
    have h3 : ¬ 0 ≥ env.SMTP_BUFFER_MAX := by omega
    have h4 : ¬ bs.length < env.SMTP_BUFFER_LENGTH := by omega
    have hrl : read_loop env [ReadResult.data bs, ReadResult.data []] [] = some bs := by
      simp only [read_loop, if_neg h2, List.length_nil, if_neg h3, if_neg h4, List.nil_append,
        if_true]
    simp only [hbuf, hrl, smtp_parse_more junk bs hbs hno, smtp_reply, thread_add_read,
      List.nil_append]
  rw [run_cons, h1]
  induction n with
  | zero => rfl
  | succ n ih =>
    rw [List.replicate_succ, run_cons, read_zero_keeps env _ bs junk hbs hno rfl rfl]
    exact ih

/-- Witness of the failing path of C9: buffer sizes 512 and 1024, a reply that
starts with 512 bytes `a`, and three further invocations. -/
theorem full_buffer_spins_witness :
    run sample_env { sample_world Stage.HELO [] with pending := [Reg.read_cmd] }
        (Event.readable [ReadResult.data (List.replicate 512 97), ReadResult.data []] 0
          :: List.replicate 3 (Event.readable [ReadResult.data []] 0))
      = { sample_world Stage.HELO [] with
          arg := { (sample_world Stage.HELO []).arg with buffer := List.replicate 512 97 }
          pending := [Reg.read_cmd] } :=
  full_buffer_spins sample_env (sample_world Stage.HELO []) (List.replicate 512 97) 0 3
    (List.length_replicate 512 (97 : Int)) (by decide) (by decide)
    (strstr_crlf_replicate 512) rfl

/-! ## The entry point -/

/-- C11: for every subject and body, with an empty recipient list `smtp_alert`
skips its body, so it creates no session, allocates nothing and registers
nothing; with a non-empty list it creates one session in the stage `CONNECTION`
with the cursor at 0 and an empty receive buffer, nothing freed, closed, sent or
connected, and registers exactly one callback, the event
`smtp_connect_thread`. -/
theorem alert_creates_session (env : Env) (null_s : String) (rs : Option real_server)
    (vrrp : Option vrrp_rt) (subject body : String) (e : String) (es : List String) :
    smtp_alert { env with conf_data := { env.conf_data with email := [] } } null_s rs vrrp
        subject body = none
    ∧ ∃ w : World,
        smtp_alert { env with conf_data := { env.conf_data with email := e :: es } } null_s rs
          vrrp subject body = some w
        ∧ w.arg.stage = Stage.CONNECTION ∧ w.arg.email_it = 0 ∧ w.arg.buffer = []
        ∧ w.arg.buflen = 0
        ∧ w.pending = [Reg.event_connect]
        ∧ w.freed = 0 ∧ w.closed = 0 ∧ w.sockets = 0 ∧ w.sent = [] := by
  constructor
  · simp [smtp_alert]
  · refine ⟨_, by simp only [smtp_alert]; rw [if_neg (by simp)], ?_⟩
    simp [MALLOC, smtp_thread_arg.buflen]

theorem smtp_alert_some (env : Env) (null_s : String) (rs : Option real_server)
    (vrrp : Option vrrp_rt) (subject body : String) (w : World)
    (hw : smtp_alert env null_s rs vrrp subject body = some w) :
    env.conf_data.email ≠ [] ∧ w.arg.stage = Stage.CONNECTION ∧ w.arg.email_it = 0
      ∧ w.arg.buffer = [] ∧ w.pending = [Reg.event_connect] ∧ w.freed = 0 ∧ w.closed = 0
      ∧ w.sockets = 0 ∧ w.sent = [] := by
  unfold smtp_alert at hw
  split at hw
  · cases hw
  · rename_i hne
    simp only [Option.some.injEq] at hw
    subst hw
    simp [MALLOC, hne]

/-- C12, as amended: with no relay configured and a non-empty recipient list,
`smtp_alert` registers one callback, the event `smtp_connect_thread`; when that
event runs, whatever `socket` and `tcp_connect` would answer, no socket is
created, nothing is closed, the session is freed once, nothing is registered,
and no later event runs anything: no read, write or connect-check callback is
ever registered. -/
theorem no_relay_teardown (env : Env) (null_s : String) (rs : Option real_server)
    (vrrp : Option vrrp_rt) (subject body : String) (w : World) (sock : Bool)
    (status : connect_result) (es : List Event)
    (hrelay : env.conf_data.smtp_server = 0)
    (hw : smtp_alert env null_s rs vrrp subject body = some w) :
    w.pending = [Reg.event_connect]
    ∧ run env w (Event.immediate sock status :: es)
        = { w with freed := 1, pending := [] }
    ∧ (run env w (Event.immediate sock status :: es)).sockets = 0
    ∧ (run env w (Event.immediate sock status :: es)).closed = 0
    ∧ (run env w (Event.immediate sock status :: es)).sent = [] := by
  obtain ⟨_, _, _, _, hp, hf, hc, hs, hsent⟩ := smtp_alert_some env null_s rs vrrp subject body w hw
  have h1 : fire env w (Event.immediate sock status) = { w with freed := 1, pending := [] } := by
    simp only [fire, hp, smtp_connect_thread, hrelay, if_true, free_smtp_all, hf]
  have h2 : run env w (Event.immediate sock status :: es)
      = { w with freed := 1, pending := [] } := by
    rw [run_cons, h1]
    exact run_idle env _ es rfl
  refine ⟨hp, h2, ?_, ?_, ?_⟩ <;> rw [h2] <;> assumption

/-- Witness of C12: the sample environment without a relay. -/
theorem no_relay_teardown_witness :
    run sample_env_no_relay
        { arg := { MALLOC with
            stage := Stage.CONNECTION
            subject := snprintf 256 (alert_subject sample_env_no_relay "(null)" none none "down")
            body := strncpy 512 "server down" }
          freed := 0, closed := 0, sockets := 0, sent := [], pending := [Reg.event_connect] }
        (Event.immediate true connect_result.connect_success :: [])
      = { arg := { MALLOC with
            stage := Stage.CONNECTION
            subject := snprintf 256 (alert_subject sample_env_no_relay "(null)" none none "down")
            body := strncpy 512 "server down" }
          freed := 1, closed := 0, sockets := 0, sent := [], pending := [] } :=
  (no_relay_teardown sample_env_no_relay "(null)" none none "down" "server down" _ true
    connect_result.connect_success [] rfl rfl).2.1

/-- Counterexample to C12 as stated: with no relay configured `smtp_alert` does
make a scheduler registration, the event `smtp_connect_thread`, and returns with
the session not yet freed. -/
theorem no_relay_counterexample :
    ¬ (∀ (env : Env) (null_s : String) (rs : Option real_server) (vrrp : Option vrrp_rt)
        (subject body : String) (w : World),
        env.conf_data.smtp_server = 0 →
        smtp_alert env null_s rs vrrp subject body = some w →
        w.pending = [] ∧ w.freed = 1) := by
  intro h
  have h1 := h sample_env_no_relay "(null)" none none "down" "server down" _ rfl rfl
  simp at h1

theorem alert_subject_eq (env : Env) (null_s : String) (rs : Option real_server)
    (vrrp : Option vrrp_rt) (subject : String) :
    alert_subject env null_s rs vrrp subject
      = amended_subject null_s env.conf_data.lvs_id rs vrrp subject := by
  unfold alert_subject amended_subject
  cases rs <;> cases vrrp <;> cases env.conf_data.lvs_id <;> simp

theorem snprintf_length (size : Nat) (text : String) :
    (snprintf size text).length ≤ size - 1 := by
  show (text.data.take (size - 1)).length ≤ size - 1
  exact List.length_take_le _ _

theorem snprintf_data (size : Nat) (text : String) :
    ∃ t, text.data = (snprintf size text).data ++ t :=
  ⟨text.data.drop (size - 1), (List.take_append_drop (size - 1) text.data).symm⟩

/-- C13, as amended: for every call of `smtp_alert` with a non-empty recipient
list the stored subject is the truncation of a text chosen by strict precedence:
with a real server `[id] Realserver address:port - subject`, else with a VRRP
instance `[id] VRRP Instance name - subject`, else with a deployment id
`[id] subject`, else the raw subject (in the first two cases the id is printed
with `%s` also when none is configured); the stored subject has at most
`MAX_HEADERS_LENGTH - 1` characters and is a prefix of the untruncated text. -/
theorem alert_subject_format (env : Env) (null_s : String) (rs : Option real_server)
    (vrrp : Option vrrp_rt) (subject body : String) (w : World)
    (hw : smtp_alert env null_s rs vrrp subject body = some w) :
    w.arg.subject
        = snprintf env.MAX_HEADERS_LENGTH
            (amended_subject null_s env.conf_data.lvs_id rs vrrp subject)
    ∧ w.arg.subject.length ≤ env.MAX_HEADERS_LENGTH - 1
    ∧ ∃ t, (amended_subject null_s env.conf_data.lvs_id rs vrrp subject).data
        = w.arg.subject.data ++ t := by
  have hs : w.arg.subject
      = snprintf env.MAX_HEADERS_LENGTH
          (amended_subject null_s env.conf_data.lvs_id rs vrrp subject) := by
    unfold smtp_alert at hw
    split at hw
    · cases hw
    · simp only [Option.some.injEq] at hw
      subst hw
      simp [alert_subject_eq]
  refine ⟨hs, ?_, ?_⟩
  · rw [hs]; exact snprintf_length _ _
  · rw [hs]; exact snprintf_data _ _

/-- Witness of C13: an alert about the sample real server. -/
theorem alert_subject_format_witness :
    ({ arg := { MALLOC with
          stage := Stage.CONNECTION
          subject := snprintf 256
            (alert_subject sample_env "(null)" (some sample_rs) none "down")
          body := strncpy 512 "server down" }
       freed := 0, closed := 0, sockets := 0, sent := [],
       pending := [Reg.event_connect] } : World).arg.subject
      = snprintf sample_env.MAX_HEADERS_LENGTH
          (amended_subject "(null)" sample_env.conf_data.lvs_id (some sample_rs) none "down") :=
  (alert_subject_format sample_env "(null)" (some sample_rs) none "down" "server down" _
    rfl).1

/-- Counterexample to C13 as stated: for an alert about the VRRP instance `VI_1`
the stored subject is `[LVS_MAIN] VRRP Instance VI_1 - down`, not
`[LVS_MAIN] Instance VI_1 - down`. -/
theorem alert_subject_counterexample :
    ¬ (∀ (env : Env) (null_s : String) (rs : Option real_server) (vrrp : Option vrrp_rt)
        (subject body : String) (w : World),
        smtp_alert env null_s rs vrrp subject body = some w →
        w.arg.subject
          = snprintf env.MAX_HEADERS_LENGTH
              (stated_subject null_s env.conf_data.lvs_id rs vrrp subject)) := by
  intro h
  have h1 := h sample_env "(null)" none (some sample_vrrp) "down" "server down" _ rfl
  revert h1
  decide

/-! ## Consumption and compaction -/

/-- C14, as amended: for every receive buffer that holds, after zero or more
continuation lines, a complete line that with its CR LF has at least four
characters, the fourth not being `-`, none of these lines containing a NUL
byte, the parse leaves in the buffer exactly the bytes that followed the CR LF
of that line, and `buflen` is their number: the lines up to and including that
CR LF are removed from the front and the bytes of a following reply are kept
unchanged. -/
theorem parse_consumes_line (env : Env) (type : thread_type) (reads : List ReadResult)
    (junk : Int) (w : World) (conts : List (List Int)) (final rest : List Int)
    (htype : type ≠ thread_type.THREAD_READ_TIMEOUT)
    (hconts : ∀ l ∈ conts, is_continuation l ∧ (0 : Int) ∉ l) (hfinal : is_final final)
    (h0 : (0 : Int) ∉ final)
    (hread : read_loop env reads w.arg.buffer = some (response conts final ++ rest)) :
    smtp_parse junk (response conts final ++ rest)
        = some (Parsed.done (line_status (final ++ CRLF)) rest)
    ∧ (smtp_read_cmd_thread env type reads junk w).arg.buffer = rest
    ∧ (smtp_read_cmd_thread env type reads junk w).arg.buflen = rest.length := by
  have hp := smtp_parse_response junk conts final rest hconts hfinal h0
  have hb : (smtp_read_cmd_thread env type reads junk w).arg.buffer = rest := by
    simp only [smtp_read_cmd_thread, if_neg htype, hread, hp, smtp_reply]
    split
    · rfl
    · simp only [smtp_switch]
      cases hs : w.arg.stage <;>
        simp [close, free_smtp_all, thread_add_write, next_stage, hs] <;>
        (try split) <;> (try split) <;> rfl
  exact ⟨hp, hb, by rw [smtp_thread_arg.buflen, hb]⟩

/-- Witness of C14: the buffer `250-a` CR LF `250 ok` CR LF `220`. -/
theorem parse_consumes_line_witness :
    (smtp_read_cmd_thread sample_env thread_type.THREAD_READ
        [ReadResult.data (response [line_250_cont] line_250 ++ [50, 50, 48])] 0
        (sample_world Stage.HELO [])).arg.buffer = [50, 50, 48] :=
  (parse_consumes_line sample_env thread_type.THREAD_READ
    [ReadResult.data (response [line_250_cont] line_250 ++ [50, 50, 48])] 0
    (sample_world Stage.HELO []) [line_250_cont] line_250 [50, 50, 48]
    (by decide) (by decide) (by decide) (by decide) (by decide)).2.1

/-- Counterexample to C14 as stated, in two parts.  The buffer `a` CR LF `-x`
CR LF holds no NUL byte and starts with a complete line that has no fourth
character; the claim would leave `-x` CR LF, but `reply[3]` is the `-` of the
next line, so the line `a` is skipped as a continuation line, `-x` is taken for
the status, and nothing is left.  The buffer `250 ` NUL `x` CR LF `220` holds a
complete line of more than four characters whose fourth character is not `-`,
yet after the parse it is unchanged, because `strstr` stops at the NUL byte. -/
theorem parse_consumes_counterexample :
    ¬ (∀ (junk : Int) (conts : List (List Int)) (final rest : List Int) (w : World),
        (∀ l ∈ conts, is_continuation l ∧ (0 : Int) ∉ l) →
        has_crlf final = false → (final ++ CRLF).get? 3 ≠ some 45 → (0 : Int) ∉ final →
        w.arg.buffer = response conts final ++ rest →
        (smtp_read_cmd_thread sample_env thread_type.THREAD_READ [ReadResult.eagain] junk
          w).arg.buffer = rest)
    ∧ ¬ (∀ (junk : Int) (conts : List (List Int)) (final rest : List Int) (w : World),
        (∀ l ∈ conts, is_continuation l) → is_final final →
        w.arg.buffer = response conts final ++ rest →
        (smtp_read_cmd_thread sample_env thread_type.THREAD_READ [ReadResult.eagain] junk
          w).arg.buffer = rest) := by
  constructor
  · intro h
    have h1 := h 0 [] [97] [45, 120, 13, 10]
      { sample_world Stage.HELO [] with
        arg := { (sample_world Stage.HELO []).arg with
          buffer := response [] [97] ++ [45, 120, 13, 10] } }
      (by decide) (by decide) (by decide) (by decide) rfl
    revert h1
    decide
  · intro h
    have h1 := h 0 [] [50, 53, 48, 32, 0, 120] [50, 50, 48]
      { sample_world Stage.HELO [] with
        arg := { (sample_world Stage.HELO []).arg with
          buffer := response [] [50, 53, 48, 32, 0, 120] ++ [50, 50, 48] } }
      (by decide) (by decide) rfl
    revert h1
    decide

theorem strstr_crlf_none (x : List Int) (h : has_crlf x = false) : strstr_crlf x = none := by
  induction x with
  | nil => rfl
  | cons c t ih =>
    obtain ⟨ht, hc⟩ := has_crlf_cons c t h
    rw [strstr_crlf]
    by_cases hz : c = 0
    · rw [if_pos hz]
    · rw [if_neg hz, if_neg hc, ih ht]; rfl

/-- The parse of continuation lines free of NUL bytes followed by a fragment
without CR LF finds no status and leaves the fragment. -/
theorem smtp_parse_fragment (junk : Int) (conts : List (List Int)) (frag : List Int)
    (hconts : ∀ l ∈ conts, is_continuation l ∧ (0 : Int) ∉ l) (hfrag : has_crlf frag = false) :
    smtp_parse junk (cat_lines conts ++ frag) = some (Parsed.more frag)
      ∨ smtp_parse junk (cat_lines conts ++ frag) = some (Parsed.done (-1) frag) := by
  induction conts with
  | nil =>
    simp only [cat_lines, List.nil_append]
    by_cases hf : frag = []
    · subst hf; exact Or.inr (smtp_parse_nil junk)
    · exact Or.inl (smtp_parse_more junk frag hf (strstr_crlf_none frag hfrag))
  | cons l ls ih =>
    have h1 := hconts l (by simp)
    have hx : cat_lines (l :: ls) ++ frag = l ++ CRLF ++ (cat_lines ls ++ frag) := by
      simp [cat_lines]
    rw [hx, smtp_parse_skip junk l _ h1.1 h1.2]
    exact ih (fun l hl => hconts l (by simp [hl]))

/-- The read handler on a buffer that, after continuation lines free of NUL
bytes, ends in a fragment without CR LF: the fragment is kept, a read is
registered, and nothing else changes. -/
theorem read_fragment (env : Env) (type : thread_type) (reads : List ReadResult) (junk : Int)
    (w : World) (conts : List (List Int)) (frag : List Int)
    (htype : type ≠ thread_type.THREAD_READ_TIMEOUT)
    (hconts : ∀ l ∈ conts, is_continuation l ∧ (0 : Int) ∉ l) (hfrag : has_crlf frag = false)
    (hread : read_loop env reads w.arg.buffer = some (cat_lines conts ++ frag)) :
    smtp_read_cmd_thread env type reads junk w
      = { w with arg := { w.arg with buffer := frag }, pending := w.pending ++ [Reg.read_cmd] } := by
  simp only [smtp_read_cmd_thread, if_neg htype, hread]
  rw [smtp_reply_no_status env w _ frag (smtp_parse_fragment junk conts frag hconts hfrag)]
  rfl

theorem run_no_terminator (env : Env) (es : List Event) (w : World) (frag : List Int)
    (hbuf : w.arg.buffer = frag) (hpend : w.pending = [Reg.read_cmd])
    (hlater : no_terminator env frag es = true) :
    run env w es = { w with arg := { w.arg with buffer := accumulated env frag es } } := by
  induction es generalizing w frag with
  | nil =>
    simp only [run, List.foldl_nil, accumulated, ← hbuf]
  | cons e es ih =>
    cases e with
    | readable reads junk =>
      simp only [no_terminator] at hlater
      cases hr : read_loop env reads frag with
      | none => simp [hr] at hlater
      | some buf2 =>
        simp only [hr, Bool.and_eq_true, Bool.not_eq_true'] at hlater
        have hstep : fire env w (Event.readable reads junk)
            = { w with arg := { w.arg with buffer := buf2 } } := by
          simp only [fire, hpend]
          rw [read_fragment env thread_type.THREAD_READ reads junk { w with pending := [] } []
            buf2 (by decide) (by simp) hlater.1 (by simpa [cat_lines, hbuf] using hr)]
          simp [hpend]
        rw [run_cons, hstep,
          ih { w with arg := { w.arg with buffer := buf2 } } buf2 rfl hpend hlater.2]
        simp [accumulated, hr]
    | writable failed => simp [no_terminator] at hlater
    | timeout => simp [no_terminator] at hlater
    | immediate sock status => simp [no_terminator] at hlater
    | connecting status => simp [no_terminator] at hlater

/-- C15, as amended: for every receive buffer that, after zero or more complete
continuation lines free of NUL bytes, ends in a possibly empty fragment without
CR LF, `smtp_read_cmd_thread` leaves the stage and the cursor unchanged, leaves
exactly the fragment in the buffer, registers exactly one read callback and no
write callback, and frees and closes nothing; and through any number of later
invocations that still find no terminator the session stays as it is, with the
accumulated bytes in the buffer and one read pending. -/
theorem fragment_waits (env : Env) (type : thread_type) (reads : List ReadResult)
    (junk : Int) (w : World) (conts : List (List Int)) (frag : List Int) (es : List Event)
    (htype : type ≠ thread_type.THREAD_READ_TIMEOUT)
    (hconts : ∀ l ∈ conts, is_continuation l ∧ (0 : Int) ∉ l) (hfrag : has_crlf frag = false)
    (hread : read_loop env reads w.arg.buffer = some (cat_lines conts ++ frag))
    (hlater : no_terminator env frag es = true) :
    smtp_read_cmd_thread env type reads junk w
        = { w with
            arg := { w.arg with buffer := frag }
            pending := w.pending ++ [Reg.read_cmd] }
    ∧ run env { w with arg := { w.arg with buffer := frag }, pending := [Reg.read_cmd] } es
        = { w with
            arg := { w.arg with buffer := accumulated env frag es }
            pending := [Reg.read_cmd] } := by
  refine ⟨read_fragment env type reads junk w conts frag htype hconts hfrag hread, ?_⟩
  rw [run_no_terminator env es _ frag rfl rfl hlater]

/-- Witness of C15: the buffer `250-a` CR LF `25`, then one byte `0` and then
nothing more arrive. -/
theorem fragment_waits_witness :
    smtp_read_cmd_thread sample_env thread_type.THREAD_READ
        [ReadResult.data (cat_lines [line_250_cont] ++ [50, 53])] 0 (sample_world Stage.HELO [])
      = { sample_world Stage.HELO [] with
          arg := { (sample_world Stage.HELO []).arg with buffer := [50, 53] }
          pending := (sample_world Stage.HELO []).pending ++ [Reg.read_cmd] } :=
  (fragment_waits sample_env thread_type.THREAD_READ
    [ReadResult.data (cat_lines [line_250_cont] ++ [50, 53])] 0 (sample_world Stage.HELO [])
    [line_250_cont] [50, 53]
    [Event.readable [ReadResult.data [48]] 0, Event.readable [ReadResult.eagain] 0]
    (by decide) (by decide) (by decide) (by decide) (by decide)).1

/-- Counterexample to C15 as stated: in the buffer `250-` NUL CR LF `25` the
continuation line holds a NUL byte; `strstr` stops there, the line is not
removed, and the whole buffer, not only the fragment `25`, is left. -/
theorem fragment_counterexample :
    ¬ (∀ (junk : Int) (conts : List (List Int)) (frag : List Int) (w : World),
        (∀ l ∈ conts, is_continuation l) → has_crlf frag = false →
        w.arg.buffer = cat_lines conts ++ frag →
        (smtp_read_cmd_thread sample_env thread_type.THREAD_READ [ReadResult.eagain] junk
          w).arg.buffer = frag) := by
  intro h
  have h1 := h 0 [[50, 53, 48, 45, 0]] [50, 53]
    { sample_world Stage.HELO [] with
      arg := { (sample_world Stage.HELO []).arg with
        buffer := cat_lines [[50, 53, 48, 45, 0]] ++ [50, 53] } }
    (by decide) (by decide) rfl
  revert h1
  decide

/-! ## The status `-1` -/

/-- C20, as amended: the line `00/` CR LF is a complete line whose fourth
character is not `-` and whose computed status is `-1`, the value that also
stands for "no status found"; for every such line free of NUL bytes, in every
stage, the handler consumes the line from the buffer, changes neither the stage
nor the cursor, frees and closes nothing, and registers a read callback and no
write callback. -/
theorem sentinel_status (env : Env) (type : thread_type) (reads : List ReadResult)
    (junk : Int) (w : World) (final rest : List Int)
    (htype : type ≠ thread_type.THREAD_READ_TIMEOUT) (hfinal : is_final final)
    (h0 : (0 : Int) ∉ final) (hstatus : line_status (final ++ CRLF) = -1)
    (hread : read_loop env reads w.arg.buffer = some (final ++ CRLF ++ rest)) :
    (is_final [48, 48, 47] ∧ line_status ([48, 48, 47] ++ CRLF) = -1)
    ∧ smtp_parse junk (final ++ CRLF ++ rest) = some (Parsed.done (-1) rest)
    ∧ smtp_read_cmd_thread env type reads junk w
        = { w with
            arg := { w.arg with buffer := rest }
            pending := w.pending ++ [Reg.read_cmd] } := by
  have hp := smtp_parse_final junk final rest hfinal h0
  rw [hstatus] at hp
  refine ⟨by decide, hp, ?_⟩
  simp only [smtp_read_cmd_thread, if_neg htype, hread, hp, smtp_reply, if_true]
  rfl

/-- Witness of C20: the reply `00/` CR LF to the `MAIL FROM` command. -/
theorem sentinel_status_witness :
    smtp_read_cmd_thread sample_env thread_type.THREAD_READ
        [ReadResult.data ([48, 48, 47] ++ CRLF ++ [50, 50])] 0 (sample_world Stage.MAIL [])
      = { sample_world Stage.MAIL [] with
          arg := { (sample_world Stage.MAIL []).arg with buffer := [50, 50] }
          pending := (sample_world Stage.MAIL []).pending ++ [Reg.read_cmd] } :=
  (sentinel_status sample_env thread_type.THREAD_READ
    [ReadResult.data ([48, 48, 47] ++ CRLF ++ [50, 50])] 0 (sample_world Stage.MAIL [])
    [48, 48, 47] [50, 50] (by decide) (by decide) (by decide) (by decide) (by decide)).2.2

/-- Counterexample to C20 as stated: the line `00/` NUL CR LF has the computed
status `-1`, yet the handler does not consume it, because `strstr` stops at the
NUL byte. -/
theorem sentinel_counterexample :
    ¬ (∀ (junk : Int) (final rest : List Int) (w : World),
        is_final final → line_status (final ++ CRLF) = -1 →
        w.arg.buffer = final ++ CRLF ++ rest →
        (smtp_read_cmd_thread sample_env thread_type.THREAD_READ [ReadResult.eagain] junk
          w).arg.buffer = rest) := by
  intro h
  have h1 := h 0 [48, 48, 47, 0] []
    { sample_world Stage.MAIL [] with
      arg := { (sample_world Stage.MAIL []).arg with buffer := [48, 48, 47, 0] ++ CRLF ++ [] } }
    (by decide) (by decide) rfl
  revert h1
  decide

/-! ## The body stage -/

/-- C19: in the stage `BODY`, for every combination of success and failure of
the sends, `smtp_send_cmd_thread` hands exactly three things to `send`, in this
order: the header block built from the sender and the subject, the body text,
and the end-of-data marker; it then registers exactly one read callback, frees
and closes nothing, and leaves the stage `ERROR` if one of the three sends
failed and `BODY` otherwise. -/
theorem body_three_writes (env : Env) (type : thread_type) (failed : Nat → Bool) (w : World)
    (htype : type ≠ thread_type.THREAD_WRITE_TIMEOUT) (hs : w.arg.stage = Stage.BODY) :
    smtp_send_cmd_thread env type failed w
      = { w with
          sent := w.sent ++ [Cmd.SMTP_HEADERS_CMD env.conf_data.email_from w.arg.subject,
            Cmd.SMTP_BODY_CMD w.arg.body, Cmd.SMTP_SEND_CMD]
          arg := { w.arg with
            stage := if failed 0 = true ∨ failed 1 = true ∨ failed 2 = true then Stage.ERROR
              else Stage.BODY }
          pending := w.pending ++ [Reg.read_cmd] } := by
  simp only [smtp_send_cmd_thread, if_neg htype, hs, thread_add_read, send]
  cases h0 : failed 0 <;> cases h1 : failed 1 <;> cases h2 : failed 2 <;>
    simp [← hs]

/-- Witness of C19: the second of the three sends fails. -/
theorem body_three_writes_witness :
    smtp_send_cmd_thread sample_env thread_type.THREAD_WRITE (fun k => decide (k = 1))
        (sample_world Stage.BODY [])
      = { sample_world Stage.BODY [] with
          sent := (sample_world Stage.BODY []).sent
            ++ [Cmd.SMTP_HEADERS_CMD sample_env.conf_data.email_from
                (sample_world Stage.BODY []).arg.subject,
              Cmd.SMTP_BODY_CMD (sample_world Stage.BODY []).arg.body, Cmd.SMTP_SEND_CMD]
          arg := { (sample_world Stage.BODY []).arg with
            stage := if (fun k => decide (k = 1)) 0 = true ∨ (fun k => decide (k = 1)) 1 = true
                ∨ (fun k => decide (k = 1)) 2 = true then Stage.ERROR
              else Stage.BODY }
          pending := (sample_world Stage.BODY []).pending ++ [Reg.read_cmd] } :=
  body_three_writes sample_env thread_type.THREAD_WRITE (fun k => decide (k = 1))
    (sample_world Stage.BODY []) (by decide) rfl

/-! ## The recipient cursor -/

theorem cursor_inv_le (n : Nat) (a : smtp_thread_arg) (h : cursor_inv n a) :
    a.email_it ≤ n := by
  unfold cursor_inv at h
  cases hs : a.stage <;> simp only [hs] at h <;> omega

theorem cursor_inv_buffer (n : Nat) (a : smtp_thread_arg) (b : List Int)
    (h : cursor_inv n a) : cursor_inv n { a with buffer := b } := h

theorem cursor_inv_error (n : Nat) (a : smtp_thread_arg) (h : cursor_inv n a) :
    cursor_inv n { a with stage := Stage.ERROR } := cursor_inv_le n a h

/-- The stage switch keeps the cursor where its stage wants it, does not move it
back, and from `RCPT` it reaches `DATA` exactly when the cursor reaches the end
of the list. -/
theorem next_stage_cursor (env : Env) (status : Int) (a : smtp_thread_arg)
    (hn : 1 ≤ env.conf_data.email.length) (h : cursor_inv env.conf_data.email.length a) :
    cursor_inv env.conf_data.email.length (next_stage env status a)
      ∧ a.email_it ≤ (next_stage env status a).email_it
      ∧ (a.stage = Stage.RCPT →
          ((next_stage env status a).stage = Stage.DATA
            ↔ (next_stage env status a).email_it = env.conf_data.email.length)) := by
  cases hs : a.stage
  case RCPT =>
    unfold cursor_inv at h
    simp only [hs] at h
    by_cases h250 : status = 250
    · subst h250
      rw [next_stage_rcpt env a hs]
      by_cases hlt : a.email_it + 1 < env.conf_data.email.length
      · simp [cursor_inv, hlt]; omega
      · simp [cursor_inv, hlt]; omega
    · have hne : next_stage env status a = { a with stage := Stage.ERROR } := by
        simp [next_stage, hs, h250]
      rw [hne]
      simp [cursor_inv]
      omega
  all_goals
    unfold cursor_inv at h
    simp only [hs] at h
    simp only [next_stage, hs]
    (try split) <;> simp [cursor_inv, hs] <;> omega

theorem cursor_step_refl (n : Nat) (a : smtp_thread_arg) (h : cursor_inv n a) :
    cursor_step n a a := by
  refine ⟨h, le_refl _, ?_⟩
  intro hs
  unfold cursor_inv at h
  simp only [hs] at h
  simp [hs]
  omega

theorem cursor_step_buffer (n : Nat) (a : smtp_thread_arg) (b : List Int)
    (h : cursor_inv n a) : cursor_step n a { a with buffer := b } := by
  refine ⟨h, le_refl _, ?_⟩
  intro hs
  unfold cursor_inv at h
  simp only [hs] at h
  simp [hs]
  omega

theorem cursor_step_error (n : Nat) (a : smtp_thread_arg) (h : cursor_inv n a) :
    cursor_step n a { a with stage := Stage.ERROR } := by
  refine ⟨cursor_inv_error n a h, le_refl _, ?_⟩
  intro hs
  unfold cursor_inv at h
  simp only [hs] at h
  simp
  omega

theorem cursor_step_next (env : Env) (status : Int) (a : smtp_thread_arg) (b : List Int)
    (hn : 1 ≤ env.conf_data.email.length) (h : cursor_inv env.conf_data.email.length a) :
    cursor_step env.conf_data.email.length a (next_stage env status { a with buffer := b }) :=
  next_stage_cursor env status { a with buffer := b } hn h

theorem write_arg (env : Env) (type : thread_type) (failed : Nat → Bool) (w : World) :
    (smtp_send_cmd_thread env type failed w).arg = w.arg
      ∨ (smtp_send_cmd_thread env type failed w).arg = { w.arg with stage := Stage.ERROR } := by
  unfold smtp_send_cmd_thread
  split
  · simp [close, free_smtp_all]
  · cases h : w.arg.stage <;> simp only [thread_add_read, close, free_smtp_all] <;>
      (try cases failed 0) <;> (try cases failed 1) <;> (try cases failed 2) <;>
      simp [send]

theorem read_arg (env : Env) (type : thread_type) (reads : List ReadResult) (junk : Int)
    (w : World) :
    (smtp_read_cmd_thread env type reads junk w).arg = w.arg
      ∨ (∃ b, (smtp_read_cmd_thread env type reads junk w).arg = { w.arg with buffer := b })
      ∨ ∃ b s, (smtp_read_cmd_thread env type reads junk w).arg
          = next_stage env s { w.arg with buffer := b } := by
  unfold smtp_read_cmd_thread
  split
  · simp [close, free_smtp_all]
  · split
    · simp [close, free_smtp_all]
    · rename_i buffer _
      rcases smtp_parse junk buffer with _ | ⟨reply⟩ | ⟨status, reply⟩
      · simp [smtp_reply]
      · exact Or.inr (Or.inl ⟨reply, by simp [smtp_reply, thread_add_read]⟩)
      · simp only [smtp_reply]
        split
        · exact Or.inr (Or.inl ⟨reply, by simp [thread_add_read]⟩)
        · simp only [smtp_switch]
          by_cases hq : w.arg.stage = Stage.QUIT
          · exact Or.inr (Or.inl ⟨reply, by simp [hq, close, free_smtp_all]⟩)
          · refine Or.inr (Or.inr ⟨reply, status, ?_⟩)
            cases h : w.arg.stage <;> simp_all [thread_add_write]

/-- Every step the scheduler fires keeps the cursor where its stage wants it,
does not move it back, and leaves `RCPT` for `DATA` exactly when the cursor
reaches the end of the list. -/
theorem fire_cursor (env : Env) (w : World) (e : Event)
    (hn : 1 ≤ env.conf_data.email.length)
    (h : cursor_inv env.conf_data.email.length w.arg) :
    cursor_step env.conf_data.email.length w.arg (fire env w e).arg := by
  have hread : ∀ type reads junk (w2 : World), w2.arg = w.arg →
      cursor_step env.conf_data.email.length w.arg
        (smtp_read_cmd_thread env type reads junk w2).arg := by
    intro type reads junk w2 hw2
    rcases read_arg env type reads junk w2 with h1 | ⟨b, h1⟩ | ⟨b, s, h1⟩
    · rw [h1, hw2]; exact cursor_step_refl _ _ h
    · rw [h1, hw2]; exact cursor_step_buffer _ _ b h
    · rw [h1, hw2]; exact cursor_step_next env s _ b hn h
  have hwrite : ∀ type failed (w2 : World), w2.arg = w.arg →
      cursor_step env.conf_data.email.length w.arg
        (smtp_send_cmd_thread env type failed w2).arg := by
    intro type failed w2 hw2
    rcases write_arg env type failed w2 with h1 | h1
    · rw [h1, hw2]; exact cursor_step_refl _ _ h
    · rw [h1, hw2]; exact cursor_step_error _ _ h
  have hsame := cursor_step_refl _ _ h
  unfold fire
  split
  · exact hread _ _ _ _ rfl
  · exact hread _ _ _ _ rfl
  · exact hwrite _ _ _ rfl
  · exact hwrite _ _ _ rfl
  · simp only [smtp_connect_thread]
    split
    · exact hsame
    · split
      · exact hsame
      · split <;> exact hsame
  · simp only [smtp_check_thread]
    split <;> exact hsame
  · simp only [smtp_check_thread]
    exact hsame
  · exact hsame

theorem run_cursor (env : Env) (es : List Event) (w : World)
    (hn : 1 ≤ env.conf_data.email.length)
    (h : cursor_inv env.conf_data.email.length w.arg) :
    cursor_inv env.conf_data.email.length (run env w es).arg
      ∧ w.arg.email_it ≤ (run env w es).arg.email_it := by
  induction es generalizing w with
  | nil => exact ⟨h, le_refl _⟩
  | cons e es ih =>
    obtain ⟨h1, h2, _⟩ := fire_cursor env w e hn h
    obtain ⟨h3, h4⟩ := ih (fire env w e) h1
    rw [run_cons]
    exact ⟨h3, le_trans h2 h4⟩

/-- C16, as amended: in every state reachable from a session created by
`smtp_alert`, over a recipient list of length `N >= 1`, the cursor is at most
`N` and no later run moves it back; whenever the stage is `RCPT` the cursor is
below `N`, so a recipient exists at the cursor; and a step taken in the stage
`RCPT` leaves it for `DATA` exactly when the cursor then equals `N` (a step
that leaves `RCPT` for `ERROR` keeps the cursor below `N`). -/
theorem cursor_bounds (env : Env) (null_s : String) (rs : Option real_server)
    (vrrp : Option vrrp_rt) (subject body : String) (w0 : World) (es es2 : List Event)
    (e : Event) (hw : smtp_alert env null_s rs vrrp subject body = some w0) :
    1 ≤ env.conf_data.email.length
    ∧ (run env w0 es).arg.email_it ≤ env.conf_data.email.length
    ∧ (run env w0 es).arg.email_it ≤ (run env (run env w0 es) es2).arg.email_it
    ∧ ((run env w0 es).arg.stage = Stage.RCPT →
        (run env w0 es).arg.email_it < env.conf_data.email.length
        ∧ (fetch_next_email env (run env w0 es).arg).isSome = true
        ∧ ((fire env (run env w0 es) e).arg.stage = Stage.DATA
            ↔ (fire env (run env w0 es) e).arg.email_it = env.conf_data.email.length)
        ∧ ((fire env (run env w0 es) e).arg.stage = Stage.ERROR →
            (fire env (run env w0 es) e).arg.email_it < env.conf_data.email.length)) := by
  obtain ⟨hne, hs0, hi0, _⟩ := smtp_alert_some env null_s rs vrrp subject body w0 hw
  have hn : 1 ≤ env.conf_data.email.length := List.length_pos.mpr hne
  have h0 : cursor_inv env.conf_data.email.length w0.arg := by
    simp [cursor_inv, hs0, hi0]
  obtain ⟨h1, _⟩ := run_cursor env es w0 hn h0
  obtain ⟨_, h2⟩ := run_cursor env es2 (run env w0 es) hn h1
  refine ⟨hn, cursor_inv_le _ _ h1, h2, ?_⟩
  intro hs
  have hlt : (run env w0 es).arg.email_it < env.conf_data.email.length := by
    have := h1
    unfold cursor_inv at this
    simpa only [hs] using this
  obtain ⟨h3, h4, h5⟩ := fire_cursor env (run env w0 es) e hn h1
  refine ⟨hlt, ?_, h5 hs, ?_⟩
  · simp only [fetch_next_email, list_element]
    rw [List.get?_eq_get hlt]
    rfl
  · intro he
    have hle := cursor_inv_le _ _ h3
    have hiff := h5 hs
    rcases Nat.lt_or_ge (fire env (run env w0 es) e).arg.email_it
      env.conf_data.email.length with h6 | h6
    · exact h6
    · exfalso
      have := hiff.mpr (by omega)
      rw [he] at this
      cases this

/-- Witness of C16: the sample session, which is the one `smtp_alert` creates
for the subject `alert` and the body `down`, after a run that has reached the
stage `RCPT`. -/
theorem cursor_bounds_witness :
    1 ≤ sample_env.conf_data.email.length
    ∧ (run sample_env (sample_world Stage.CONNECTION [Reg.event_connect])
        sample_run_to_rcpt).arg.email_it ≤ sample_env.conf_data.email.length :=
  have h := cursor_bounds sample_env "(null)" none none "alert" "down"
    (sample_world Stage.CONNECTION [Reg.event_connect]) sample_run_to_rcpt [] Event.timeout
    (by decide)
  ⟨h.1, h.2.1⟩

/-- Counterexample to C16 as stated: the sample session in the stage `RCPT`,
with the cursor at 0 of 2 recipients, leaves that stage for `ERROR` when the
`send` of the recipient command fails, and the cursor is still 0. -/
theorem cursor_counterexample :
    ¬ (∀ (env : Env) (w0 : World) (es : List Event) (e : Event),
        smtp_alert env "(null)" none none "alert" "down" = some w0 →
        (run env w0 es).arg.stage = Stage.RCPT →
        (fire env (run env w0 es) e).arg.stage ≠ Stage.RCPT →
        (fire env (run env w0 es) e).arg.email_it = env.conf_data.email.length) := by
  intro h
  have h1 := h sample_env _ sample_run_to_rcpt (Event.writable (fun _ => true)) rfl
    (by decide) (by decide)
  revert h1
  decide

/-! ## The size of the receive buffer -/

theorem read_loop_within (env : Env) (reads : List ReadResult) (buffer buffer2 : List Int)
    (hlen : buffer.length ≤ env.SMTP_BUFFER_LENGTH)
    (hok : reads_within env reads buffer = true)
    (hread : read_loop env reads buffer = some buffer2) :
    buffer2.length ≤ env.SMTP_BUFFER_LENGTH := by
  induction reads generalizing buffer with
  | nil => simp only [read_loop, Option.some.injEq] at hread; rw [← hread]; exact hlen
  | cons r rest ih =>
    cases r with
    | eagain => simp only [read_loop, Option.some.injEq] at hread; rw [← hread]; exact hlen
    | error => simp [read_loop] at hread
    | data bytes =>
      simp only [reads_within, read_count, Bool.and_eq_true, decide_eq_true_eq] at hok
      obtain ⟨hcount, hrest⟩ := hok
      have hsum : (buffer ++ bytes).length ≤ env.SMTP_BUFFER_LENGTH := by
        simp only [List.length_append]; omega
      simp only [read_loop] at hread
      split at hread
      · simp only [Option.some.injEq] at hread; rw [← hread]; exact hlen
      · rename_i h1
        split at hread
        · cases hread
        · rename_i h2
          split at hread
          · simp only [Option.some.injEq] at hread; rw [← hread]; exact hsum
          · rename_i h3
            rw [if_neg h1, if_neg h2, if_neg h3] at hrest
            exact ih (buffer ++ bytes) hsum hrest hread

theorem requested_nonneg (env : Env) (reads : List ReadResult) (buffer : List Int)
    (hlen : buffer.length ≤ env.SMTP_BUFFER_LENGTH)
    (hok : reads_within env reads buffer = true) :
    ∀ c ∈ requested env reads buffer, 0 ≤ c := by
  have h0 : 0 ≤ read_count env buffer := by unfold read_count; omega
  induction reads generalizing buffer with
  | nil => intro c hc; simp only [requested, List.mem_singleton] at hc; rw [hc]; exact h0
  | cons r rest ih =>
    cases r with
    | eagain => intro c hc; simp only [requested, List.mem_singleton] at hc; rw [hc]; exact h0
    | error => intro c hc; simp only [requested, List.mem_singleton] at hc; rw [hc]; exact h0
    | data bytes =>
      simp only [reads_within, read_count, Bool.and_eq_true, decide_eq_true_eq] at hok
      obtain ⟨hcount, hrest⟩ := hok
      have hsum : (buffer ++ bytes).length ≤ env.SMTP_BUFFER_LENGTH := by
        simp only [List.length_append]; omega
      intro c hc
      simp only [requested, List.mem_cons] at hc
      rcases hc with hc | hc
      · rw [hc]; exact h0
      · split at hc
        · simp at hc
        · rename_i h1
          split at hc
          · simp at hc
          · rename_i h2
            split at hc
            · simp at hc
            · rename_i h3
              rw [if_neg h1, if_neg h2, if_neg h3] at hrest
              exact ih (buffer ++ bytes) hsum hrest (by unfold read_count; omega) c hc

/-- What the parse leaves is no longer than what it was given. -/
theorem smtp_parse_length (junk : Int) (x : List Int) :
    (∀ r, smtp_parse junk x = some (Parsed.more r) → r.length ≤ x.length)
      ∧ ∀ s r, smtp_parse junk x = some (Parsed.done s r) → r.length ≤ x.length := by
  obtain ⟨n, hn⟩ : ∃ n, x.length = n := ⟨_, rfl⟩
  induction n using Nat.strong_induction_on generalizing x with
  | _ n ih =>
    rw [smtp_parse_eq]
    split
    · constructor
      · intro r h; cases h
      · intro s r h
        simp only [Option.some.injEq, Parsed.done.injEq] at h
        rw [← h.2]
    · cases hp : strstr_crlf x with
      | none =>
        constructor
        · intro r h
          simp only [Option.some.injEq, Parsed.more.injEq] at h
          rw [← h]
        · intro s r h; cases h
      | some p =>
        obtain ⟨l, rest, hx, hlen, _, _⟩ := strstr_crlf_some x p hp
        have hd : (x.drop (p + 2)).length + 2 ≤ x.length := by
          rw [hx]; simp; omega
        simp only []
        split
        · obtain ⟨h1, h2⟩ := ih (x.drop (p + 2)).length (by omega) (x.drop (p + 2)) rfl
          exact ⟨fun r h => le_trans (h1 r h) (by omega),
            fun s r h => le_trans (h2 s r h) (by omega)⟩
        · constructor
          · intro r h; cases h
          · intro s r h
            simp only [Option.some.injEq, Parsed.done.injEq] at h
            rw [← h.2]; omega

theorem next_stage_buffer (env : Env) (status : Int) (a : smtp_thread_arg) :
    (next_stage env status a).buffer = a.buffer := by
  unfold next_stage
  cases h : a.stage <;> simp only [] <;> (try split) <;> (try split) <;> rfl

theorem smtp_reply_length (env : Env) (w : World) (junk : Int) (x : List Int) (n : Nat)
    (hw : w.arg.buffer.length ≤ n) (hx : x.length ≤ n) :
    (smtp_reply env w (smtp_parse junk x)).arg.buffer.length ≤ n := by
  obtain ⟨h1, h2⟩ := smtp_parse_length junk x
  cases hp : smtp_parse junk x with
  | none => simpa [smtp_reply] using hw
  | some r =>
    cases r with
    | more reply =>
      have := h1 reply hp
      simp only [smtp_reply, thread_add_read]
      omega
    | done status reply =>
      have := h2 status reply hp
      simp only [smtp_reply]
      split
      · simp only [thread_add_read]; omega
      · simp only [smtp_switch]
        cases hs : w.arg.stage <;>
          simp only [thread_add_write, close, free_smtp_all, next_stage_buffer] <;> omega

theorem read_buflen (env : Env) (type : thread_type) (reads : List ReadResult) (junk : Int)
    (w : World) (hlen : w.arg.buffer.length ≤ env.SMTP_BUFFER_LENGTH)
    (hok : reads_within env reads w.arg.buffer = true) :
    (smtp_read_cmd_thread env type reads junk w).arg.buffer.length
      ≤ env.SMTP_BUFFER_LENGTH := by
  unfold smtp_read_cmd_thread
  split
  · exact hlen
  · cases hr : read_loop env reads w.arg.buffer with
    | none => exact hlen
    | some buffer =>
      exact smtp_reply_length env w junk buffer _ hlen
        (read_loop_within env reads _ buffer hlen hok hr)

theorem write_buflen (env : Env) (type : thread_type) (failed : Nat → Bool) (w : World) :
    (smtp_send_cmd_thread env type failed w).arg.buffer = w.arg.buffer := by
  rcases write_arg env type failed w with h | h <;> rw [h]

theorem fire_buflen (env : Env) (w : World) (e : Event)
    (hlen : w.arg.buffer.length ≤ env.SMTP_BUFFER_LENGTH)
    (hok : events_within env w [e] = true) :
    (fire env w e).arg.buffer.length ≤ env.SMTP_BUFFER_LENGTH := by
  simp only [events_within, Bool.and_true] at hok
  unfold fire
  split
  · rename_i rest reads junk hp
    simp only [hp] at hok
    exact read_buflen env _ reads junk _ hlen hok
  · exact read_buflen env _ [] 0 _ hlen rfl
  · rw [write_buflen]; exact hlen
  · rw [write_buflen]; exact hlen
  · simp only [smtp_connect_thread]
    split
    · exact hlen
    · split
      · exact hlen
      · split <;> exact hlen
  · simp only [smtp_check_thread]
    split <;> exact hlen
  · simp only [smtp_check_thread]
    exact hlen
  · exact hlen

theorem run_buflen (env : Env) (es : List Event) (w : World)
    (hlen : w.arg.buffer.length ≤ env.SMTP_BUFFER_LENGTH)
    (hok : events_within env w es = true) :
    (run env w es).arg.buffer.length ≤ env.SMTP_BUFFER_LENGTH := by
  induction es generalizing w with
  | nil => exact hlen
  | cons e es ih =>
    have h1 : events_within env w [e] = true ∧ events_within env (fire env w e) es = true := by
      simp only [events_within, Bool.and_eq_true, Bool.and_true] at hok ⊢
      exact hok
    rw [run_cons]
    exact ih (fire env w e) (fire_buflen env w e hlen h1.1) h1.2

/-- C17: with `SMTP_BUFFER_LENGTH <= SMTP_BUFFER_MAX`, in every state reached
from a session created by `smtp_alert` (whose `buflen` is 0) by a run in which
every `read` returns no more bytes than the count it asked for, `buflen` is at
most `SMTP_BUFFER_LENGTH` and so at most `SMTP_BUFFER_MAX`; it still is after
one more invocation of `smtp_read_cmd_thread`, and none of the counts
`SMTP_BUFFER_LENGTH - buflen` that invocation asks for is negative. -/
theorem buflen_bounded (env : Env) (null_s : String) (rs : Option real_server)
    (vrrp : Option vrrp_rt) (subject body : String) (w0 : World) (es : List Event)
    (type : thread_type) (reads : List ReadResult) (junk : Int)
    (hconst : env.SMTP_BUFFER_LENGTH ≤ env.SMTP_BUFFER_MAX)
    (hw : smtp_alert env null_s rs vrrp subject body = some w0)
    (hok : events_within env w0 es = true)
    (hreads : reads_within env reads (run env w0 es).arg.buffer = true) :
    w0.arg.buflen = 0
    ∧ (run env w0 es).arg.buflen ≤ env.SMTP_BUFFER_MAX
    ∧ (smtp_read_cmd_thread env type reads junk (run env w0 es)).arg.buflen
        ≤ env.SMTP_BUFFER_MAX
    ∧ (∀ c ∈ requested env reads (run env w0 es).arg.buffer, 0 ≤ c) := by
  obtain ⟨_, _, _, hb, _⟩ := smtp_alert_some env null_s rs vrrp subject body w0 hw
  have h0 : w0.arg.buffer.length ≤ env.SMTP_BUFFER_LENGTH := by rw [hb]; simp
  have h1 := run_buflen env es w0 h0 hok
  have h2 := read_buflen env type reads junk (run env w0 es) h1 hreads
  refine ⟨by rw [smtp_thread_arg.buflen, hb]; rfl, ?_, ?_, ?_⟩
  · exact le_trans h1 hconst
  · exact le_trans h2 hconst
  · exact requested_nonneg env reads _ h1 hreads

/-- Witness of C17: the sample session after the run to the stage `RCPT`, and
one more read of a reply `250 ok`. -/
theorem buflen_bounded_witness :
    (run sample_env (sample_world Stage.CONNECTION [Reg.event_connect])
        sample_run_to_rcpt).arg.buflen ≤ sample_env.SMTP_BUFFER_MAX :=
  (buflen_bounded sample_env "(null)" none none "alert" "down"
    (sample_world Stage.CONNECTION [Reg.event_connect]) sample_run_to_rcpt
    thread_type.THREAD_READ [ReadResult.data (response [] line_250)] 0
    (by decide) (by decide) (by decide) (by decide)).2.1

/-! ## Registrations -/

/-- C18, the failing path: with a relay configured, an invocation of
`smtp_connect_thread` in which `socket` returns no descriptor registers no
callback and yet does not tear the session down: the state is returned as it
was, with nothing freed. -/
theorem connect_registers_none (env : Env) (status : connect_result) (w : World)
    (hrelay : env.conf_data.smtp_server ≠ 0) :
    smtp_connect_thread env false status w = w
    ∧ (smtp_connect_thread env false status w).pending = w.pending
    ∧ (smtp_connect_thread env false status w).freed = w.freed := by
  have h : smtp_connect_thread env false status w = w := by
    simp [smtp_connect_thread, hrelay]
  exact ⟨h, by rw [h], by rw [h]⟩

/-- Witness of the failing path of C18: the sample session, whose relay is
configured. -/
theorem connect_registers_none_witness :
    smtp_connect_thread sample_env false connect_result.connect_in_progress
        (sample_world Stage.CONNECTION [])
      = sample_world Stage.CONNECTION [] :=
  (connect_registers_none sample_env connect_result.connect_in_progress
    (sample_world Stage.CONNECTION []) (by decide)).1

/-! ## Fragmented replies and the read count -/

end Smtp
